import Mathlib

/-!
# Dappled Light: the bougainvillea generator, the wind animation and the lighting

A shallow embedding of `src/main.jsx`.

* Numbers are elements of a linearly ordered field `α` (the real numbers for the
  program itself); the functions of the JavaScript `Math` object that are not field
  operations are collected in `JSMath`.
* `Math.random()` is a stream `rng : ℕ → α` together with the count of values already
  drawn (`Plant.draws`); the `k`-th call returns `rng k`.
* The three.js classes used by the program (`Vector3`, `Euler`, `Quaternion`, `Matrix4`,
  `Object3D`) are transcribed method by method, restricted to the default Euler order
  `XYZ`, which is the only one the program uses.
* Arrays that the program fills with `push` are lists extended at the end.
* The light position (lines 45-47) is also given in IEEE binary64, the number type of
  JavaScript (`fl`, `doubleMath`, `sunPositionDouble`): there `Math.PI` is the binary64
  number nearest to pi and every operation rounds, which decides whether the position is
  exactly on the grid points the arc passes through over the real numbers.
-/

namespace DappledLight

/-! ## The `Math` object -/

/-- The members of the JavaScript `Math` object used by the program and by three.js that
are not field operations. -/
structure JSMath (α : Type) where
  PI : α
  sin : α → α
  cos : α → α
  sqrt : α → α
  asin : α → α
  atan2 : α → α → α

/-- The `Math` object over the real numbers, with `Math.PI` taken as pi itself; `atan2 y x`
is the argument of `x + y i`. -/
noncomputable def realMath : JSMath ℝ where
  PI := Real.pi
  sin := Real.sin
  cos := Real.cos
  sqrt := Real.sqrt
  asin := Real.arcsin
  atan2 := fun y x => Complex.arg ⟨x, y⟩

/-! ## three.js: vectors, Euler angles, quaternions, matrices -/

/-- Mirror of `THREE.Vector3`. -/
structure Vector3 (α : Type) where
  x : α
  y : α
  z : α
deriving DecidableEq

/-- Mirror of `THREE.Euler` with the default order `XYZ`. -/
structure Euler (α : Type) where
  x : α
  y : α
  z : α
deriving DecidableEq

/-- Mirror of `THREE.Quaternion`. -/
structure Quaternion (α : Type) where
  x : α
  y : α
  z : α
  w : α
deriving DecidableEq

/-- Mirror of `THREE.Matrix4`: field `teK` is `elements[K]` (column-major). -/
structure Matrix4 (α : Type) where
  te0 : α
  te1 : α
  te2 : α
  te3 : α
  te4 : α
  te5 : α
  te6 : α
  te7 : α
  te8 : α
  te9 : α
  te10 : α
  te11 : α
  te12 : α
  te13 : α
  te14 : α
  te15 : α
deriving DecidableEq

section Three

variable {α : Type} [LinearOrderedField α]

/-- Mirror of `Vector3.add`. -/
def Vector3.add (a v : Vector3 α) : Vector3 α :=
  ⟨a.x + v.x, a.y + v.y, a.z + v.z⟩

/-- Mirror of `Vector3.multiplyScalar`. -/
def Vector3.multiplyScalar (a : Vector3 α) (scalar : α) : Vector3 α :=
  ⟨a.x * scalar, a.y * scalar, a.z * scalar⟩

/-- Mirror of `Vector3.divideScalar`: `multiplyScalar(1 / scalar)`. -/
def Vector3.divideScalar (a : Vector3 α) (scalar : α) : Vector3 α :=
  a.multiplyScalar (1 / scalar)

/-- Mirror of `Vector3.length`. -/
def Vector3.length (M : JSMath α) (a : Vector3 α) : α :=
  M.sqrt (a.x * a.x + a.y * a.y + a.z * a.z)

/-- Mirror of `Vector3.normalize`: `divideScalar(length() || 1)`. -/
def Vector3.normalize (M : JSMath α) (a : Vector3 α) : Vector3 α :=
  a.divideScalar (if a.length M = 0 then 1 else a.length M)

/-- Mirror of `Quaternion.setFromAxisAngle`. -/
def Quaternion.setFromAxisAngle (M : JSMath α) (axis : Vector3 α) (angle : α) :
    Quaternion α :=
  let halfAngle := angle / 2
  let s := M.sin halfAngle
  ⟨axis.x * s, axis.y * s, axis.z * s, M.cos halfAngle⟩

/-- Mirror of `Quaternion.setFromEuler` for the order `XYZ`. -/
def Quaternion.setFromEuler (M : JSMath α) (euler : Euler α) : Quaternion α :=
  let c1 := M.cos (euler.x / 2)
  let c2 := M.cos (euler.y / 2)
  let c3 := M.cos (euler.z / 2)
  let s1 := M.sin (euler.x / 2)
  let s2 := M.sin (euler.y / 2)
  let s3 := M.sin (euler.z / 2)
  ⟨s1 * c2 * c3 + c1 * s2 * s3,
   c1 * s2 * c3 - s1 * c2 * s3,
   c1 * c2 * s3 + s1 * s2 * c3,
   c1 * c2 * c3 - s1 * s2 * s3⟩

/-- Mirror of `Quaternion.multiply` (`multiplyQuaternions(this, q)`). -/
def Quaternion.multiply (a b : Quaternion α) : Quaternion α :=
  ⟨a.x * b.w + a.w * b.x + a.y * b.z - a.z * b.y,
   a.y * b.w + a.w * b.y + a.z * b.x - a.x * b.z,
   a.z * b.w + a.w * b.z + a.x * b.y - a.y * b.x,
   a.w * b.w - a.x * b.x - a.y * b.y - a.z * b.z⟩

/-- Mirror of `Quaternion.length`. -/
def Quaternion.length (M : JSMath α) (q : Quaternion α) : α :=
  M.sqrt (q.x * q.x + q.y * q.y + q.z * q.z + q.w * q.w)

/-- Mirror of `Quaternion.normalize`. -/
def Quaternion.normalize (M : JSMath α) (q : Quaternion α) : Quaternion α :=
  let l := q.length M
  if l = 0 then ⟨0, 0, 0, 1⟩
  else ⟨q.x * (1 / l), q.y * (1 / l), q.z * (1 / l), q.w * (1 / l)⟩

/-- The constant `Number.EPSILON`, two to the power -52. -/
def EPSILON : α := 1 / 2 ^ 52

/-- Mirror of `Quaternion.setFromUnitVectors`. -/
def Quaternion.setFromUnitVectors (M : JSMath α) (vFrom vTo : Vector3 α) : Quaternion α :=
  let r := vFrom.x * vTo.x + vFrom.y * vTo.y + vFrom.z * vTo.z + 1
  if r < EPSILON then
    if |vFrom.x| > |vFrom.z| then
      Quaternion.normalize M ⟨-vFrom.y, vFrom.x, 0, 0⟩
    else
      Quaternion.normalize M ⟨0, -vFrom.z, vFrom.y, 0⟩
  else
    Quaternion.normalize M
      ⟨vFrom.y * vTo.z - vFrom.z * vTo.y,
       vFrom.z * vTo.x - vFrom.x * vTo.z,
       vFrom.x * vTo.y - vFrom.y * vTo.x,
       r⟩

/-- Mirror of `Vector3.applyQuaternion`. -/
def Vector3.applyQuaternion (v : Vector3 α) (q : Quaternion α) : Vector3 α :=
  let tx := 2 * (q.y * v.z - q.z * v.y)
  let ty := 2 * (q.z * v.x - q.x * v.z)
  let tz := 2 * (q.x * v.y - q.y * v.x)
  ⟨v.x + q.w * tx + q.y * tz - q.z * ty,
   v.y + q.w * ty + q.z * tx - q.x * tz,
   v.z + q.w * tz + q.x * ty - q.y * tx⟩

/-- Mirror of `Vector3.applyAxisAngle`. -/
def Vector3.applyAxisAngle (M : JSMath α) (v axis : Vector3 α) (angle : α) : Vector3 α :=
  v.applyQuaternion (Quaternion.setFromAxisAngle M axis angle)

/-- Mirror of `Matrix4.compose`. -/
def Matrix4.compose (position : Vector3 α) (quaternion : Quaternion α) (scale : Vector3 α) :
    Matrix4 α :=
  let x := quaternion.x
  let y := quaternion.y
  let z := quaternion.z
  let w := quaternion.w
  let x2 := x + x
  let y2 := y + y
  let z2 := z + z
  let xx := x * x2
  let xy := x * y2
  let xz := x * z2
  let yy := y * y2
  let yz := y * z2
  let zz := z * z2
  let wx := w * x2
  let wy := w * y2
  let wz := w * z2
  let sx := scale.x
  let sy := scale.y
  let sz := scale.z
  { te0 := (1 - (yy + zz)) * sx
    te1 := (xy + wz) * sx
    te2 := (xz - wy) * sx
    te3 := 0
    te4 := (xy - wz) * sy
    te5 := (1 - (xx + zz)) * sy
    te6 := (yz + wx) * sy
    te7 := 0
    te8 := (xz + wy) * sz
    te9 := (yz - wx) * sz
    te10 := (1 - (xx + yy)) * sz
    te11 := 0
    te12 := position.x
    te13 := position.y
    te14 := position.z
    te15 := 1 }

/-- Mirror of `Matrix4.makeRotationFromQuaternion`: `compose(zero, q, one)`. -/
def Matrix4.makeRotationFromQuaternion (q : Quaternion α) : Matrix4 α :=
  Matrix4.compose ⟨0, 0, 0⟩ q ⟨1, 1, 1⟩

/-- Mirror of `MathUtils.clamp`: `max(min, min(max, value))`. -/
def clamp (value lo hi : α) : α :=
  max lo (min hi value)

/-- Mirror of `Euler.setFromRotationMatrix` for the order `XYZ`. -/
def Euler.setFromRotationMatrix (M : JSMath α) (m : Matrix4 α) : Euler α :=
  let m11 := m.te0
  let m12 := m.te4
  let m13 := m.te8
  let m22 := m.te5
  let m23 := m.te9
  let m32 := m.te6
  let m33 := m.te10
  let y := M.asin (clamp m13 (-1) 1)
  if |m13| < 0.9999999 then
    ⟨M.atan2 (-m23) m33, y, M.atan2 (-m12) m11⟩
  else
    ⟨M.atan2 m32 m22, y, 0⟩

/-- Mirror of `Euler.setFromQuaternion`. -/
def Euler.setFromQuaternion (M : JSMath α) (q : Quaternion α) : Euler α :=
  Euler.setFromRotationMatrix M (Matrix4.makeRotationFromQuaternion q)

/-! ## three.js: `Object3D` -/

/-- Mirror of `THREE.Object3D`, restricted to the transform fields. `rotation` and
`quaternion` are kept in sync by the change callbacks three.js installs on both. -/
structure Object3D (α : Type) where
  position : Vector3 α
  rotation : Euler α
  quaternion : Quaternion α
  scale : Vector3 α
  matrix : Matrix4 α
deriving DecidableEq

/-- The identity matrix, the initial value of `Object3D.matrix`. -/
def Matrix4.identity : Matrix4 α :=
  ⟨1, 0, 0, 0, 0, 1, 0, 0, 0, 0, 1, 0, 0, 0, 0, 1⟩

/-- A fresh object, `new THREE.Object3D()`. -/
def Object3D.new : Object3D α :=
  { position := ⟨0, 0, 0⟩
    rotation := ⟨0, 0, 0⟩
    quaternion := ⟨0, 0, 0, 1⟩
    scale := ⟨1, 1, 1⟩
    matrix := Matrix4.identity }

/-- The call `o.position.copy(v)`. -/
def Object3D.positionCopy (o : Object3D α) (v : Vector3 α) : Object3D α :=
  { o with position := v }

/-- The calls `o.rotation.copy(e)` and `o.rotation.set(x, y, z)`: the Euler angles are
replaced and the change callback recomputes the quaternion from them. -/
def Object3D.rotationCopy (M : JSMath α) (o : Object3D α) (e : Euler α) : Object3D α :=
  { o with rotation := e, quaternion := Quaternion.setFromEuler M e }

/-- Mirror of `Object3D.rotateOnAxis`: the quaternion is multiplied on the right by the
axis-angle rotation and the change callback recomputes the Euler angles from it. -/
def Object3D.rotateOnAxis (M : JSMath α) (o : Object3D α) (axis : Vector3 α) (angle : α) :
    Object3D α :=
  let q := o.quaternion.multiply (Quaternion.setFromAxisAngle M axis angle)
  { o with quaternion := q, rotation := Euler.setFromQuaternion M q }

/-- Mirror of `Object3D.rotateX`. -/
def Object3D.rotateX (M : JSMath α) (o : Object3D α) (angle : α) : Object3D α :=
  o.rotateOnAxis M ⟨1, 0, 0⟩ angle

/-- Mirror of `Object3D.rotateY`. -/
def Object3D.rotateY (M : JSMath α) (o : Object3D α) (angle : α) : Object3D α :=
  o.rotateOnAxis M ⟨0, 1, 0⟩ angle

/-- The call `o.scale.setScalar(s)`. -/
def Object3D.scaleSetScalar (o : Object3D α) (s : α) : Object3D α :=
  { o with scale := ⟨s, s, s⟩ }

/-- Mirror of `Object3D.updateMatrix`. -/
def Object3D.updateMatrix (o : Object3D α) : Object3D α :=
  { o with matrix := Matrix4.compose o.position o.quaternion o.scale }

end Three

/-! ## Plant data (`--- PLANT DATA ---`) -/

/-- One entry of `leavesData`. -/
structure LeafData (α : Type) where
  position : Vector3 α
  rotation : Euler α
  scale : α
  jitter : α
  speed : α
deriving DecidableEq

/-- One entry of `bractsData`. -/
structure BractData (α : Type) where
  pos : Vector3 α
  rot : Euler α
  scale : α
  jitter : α
  speed : α
deriving DecidableEq

/-- One entry of `centersData`. -/
structure CenterData (α : Type) where
  pos : Vector3 α
  rot : Euler α
  scale : α
  jitter : α
  speed : α
deriving DecidableEq

/-- One `branchMesh` added to `plantGroup`: the transform fields that `grow` sets and the
two shadow flags. -/
structure BranchMesh (α : Type) where
  position : Vector3 α
  scale : Vector3 α
  quaternion : Quaternion α
  castShadow : Bool
  receiveShadow : Bool
deriving DecidableEq

/-- Everything `generateBougainvillea` writes: the branch meshes added to `plantGroup`, the
three descriptor arrays, and the number of `Math.random()` values consumed so far. -/
structure Plant (α : Type) where
  draws : ℕ
  branches : List (BranchMesh α)
  leavesData : List (LeafData α)
  bractsData : List (BractData α)
  centersData : List (CenterData α)
deriving DecidableEq

/-- The state before `generateBougainvillea()`: empty arrays, empty `plantGroup`. -/
def Plant.empty {α : Type} : Plant α :=
  { draws := 0, branches := [], leavesData := [], bractsData := [], centersData := [] }

/-- A counted loop `for (let i = 0; i < n; i++) body(i)` acting on a state. -/
def forLoop {σ : Type} : ℕ → (ℕ → σ → σ) → σ → σ
  | 0, _, s => s
  | n + 1, body, s => body n (forLoop n body s)

section Generate

variable {α : Type} [LinearOrderedField α]

/-- The constant `iterations`. -/
def iterations : ℕ := 5

/-- The constant `angleSpread`, 35 degrees in radians. -/
def angleSpread (M : JSMath α) : α := (M.PI / 180) * 35

/-- The constant `lengthScale`. -/
def lengthScale : α := 0.76

/-- The local `len` of `grow`: `Math.pow(lengthScale, 5 - depth) * 3.2`. -/
def len (depth : ℕ) : α := (lengthScale : α) ^ ((5 : ℤ) - (depth : ℤ)) * 3.2

/-- The local `endPos` of `grow`. -/
def endPos (pos dir : Vector3 α) (depth : ℕ) : Vector3 α :=
  pos.add (dir.multiplyScalar (len depth))

/-- Lines 160-167 of `grow`: the branch mesh is built and added to `plantGroup`. -/
def addBranch (M : JSMath α) (pos dir : Vector3 α) (depth : ℕ) (s : Plant α) : Plant α :=
  { s with
    branches := s.branches ++
      [{ position := pos
         scale := ⟨(depth : α) * 0.2, len depth, (depth : α) * 0.2⟩
         quaternion := Quaternion.setFromUnitVectors M ⟨0, 1, 0⟩ (dir.normalize M)
         castShadow := true
         receiveShadow := true }] }

/-- The local `leafCount` of `grow`. -/
def leafCount (depth : ℕ) : ℕ := if depth = 1 then 10 else 4

/-- The local `clusterCount` of `grow`. -/
def clusterCount (depth : ℕ) : ℕ := if depth = 1 then 8 else 3

/-- The local `branches` of `grow`. -/
def branchCount (depth : ℕ) : ℕ := if depth = iterations then 5 else 2

/-- One pass of the leaf loop (lines 172-178): nine random values are drawn, in the order
in which the object literal evaluates them, and one descriptor is pushed. -/
def pushLeaf (M : JSMath α) (rng : ℕ → α) (endPos : Vector3 α) (s : Plant α) : Plant α :=
  let r := fun k => rng (s.draws + k)
  { s with
    draws := s.draws + 9
    leavesData := s.leavesData ++
      [{ position := endPos.add ⟨(r 0 - 0.5) * 0.8, (r 1 - 0.5) * 0.8, (r 2 - 0.5) * 0.8⟩
         rotation := ⟨r 3 * M.PI, r 4 * M.PI, r 5 * M.PI⟩
         scale := r 6 * 0.3 + 0.6
         jitter := r 7 * 100
         speed := 0.4 + r 8 * 0.2 }] }

/-- The local `bractDummy` after lines 190-194, for index `i` of the bract loop. -/
def bractDummy (M : JSMath α) (clusterPos : Vector3 α) (clusterRot : Euler α) (i : ℕ) :
    Object3D α :=
  Object3D.rotateX M
    (Object3D.rotateY M
      (Object3D.rotationCopy M (Object3D.positionCopy Object3D.new clusterPos) clusterRot)
      (((i : α) * M.PI * 2) / 3))
    0.5

/-- One pass of the bract loop (lines 190-201) for index `i`: a fresh dummy object is
posed, one random value is drawn for the scale and one descriptor is pushed. -/
def pushBract (M : JSMath α) (rng : ℕ → α) (clusterPos : Vector3 α) (clusterRot : Euler α)
    (jitter speed : α) (i : ℕ) (s : Plant α) : Plant α :=
  { s with
    draws := s.draws + 1
    bractsData := s.bractsData ++
      [{ pos := (bractDummy M clusterPos clusterRot i).position
         rot := (bractDummy M clusterPos clusterRot i).rotation
         scale := 0.6 + rng s.draws * 0.2
         jitter := jitter
         speed := speed }] }

/-- One pass of the cluster loop (lines 184-203): eight random values fix the position,
rotation, jitter and speed of the cluster, three bracts are pushed, then the centre. -/
def pushCluster (M : JSMath α) (rng : ℕ → α) (endPos : Vector3 α) (s : Plant α) : Plant α :=
  let r := fun k => rng (s.draws + k)
  let clusterPos := endPos.add ⟨(r 0 - 0.5) * 1.8, (r 1 - 0.5) * 1.8, (r 2 - 0.5) * 1.8⟩
  let clusterRot : Euler α := ⟨r 3 * M.PI, r 4 * M.PI, r 5 * M.PI⟩
  let jitter := r 6 * 100
  let speed := 1.3 + r 7 * 0.5
  let s1 := forLoop 3 (pushBract M rng clusterPos clusterRot jitter speed)
    { s with draws := s.draws + 8 }
  { s1 with
    centersData := s1.centersData ++
      [{ pos := clusterPos, rot := clusterRot, scale := 0.5, jitter := jitter,
         speed := speed }] }

/-- Lines 157-206 of `grow`: everything one call does before it recurses. -/
def spawn (M : JSMath α) (rng : ℕ → α) (depth : ℕ) (pos dir : Vector3 α) (s : Plant α) :
    Plant α :=
  let s0 := addBranch M pos dir depth s
  if depth ≤ 3 then
    let s1 := forLoop (leafCount depth) (fun _ t => pushLeaf M rng (endPos pos dir depth) t) s0
    if depth ≤ 2 then
      forLoop (clusterCount depth) (fun _ t => pushCluster M rng (endPos pos dir depth) t) s1
    else s1
  else s0

/-- The local `newDir` of the branching loop (lines 210-213), from the two random values
`r0` and `r1` drawn for it. -/
def newDir (M : JSMath α) (dir : Vector3 α) (r0 r1 : α) : Vector3 α :=
  Vector3.normalize M
    (Vector3.applyAxisAngle M
      (Vector3.applyAxisAngle M dir ⟨1, 0, 0⟩ ((r0 - 0.5) * angleSpread M * 2.2))
      ⟨0, 1, 0⟩ (r1 * M.PI * 2))

/-- The recursive function `grow(pos, dir, depth)`. The case `depth + 1` is the branch
`depth > 0` of the source, where every recursive call receives `depth - 1`. -/
def grow (M : JSMath α) (rng : ℕ → α) : ℕ → Vector3 α → Vector3 α → Plant α → Plant α
  | 0, pos, dir, s => spawn M rng 0 pos dir s
  | depth + 1, pos, dir, s =>
    forLoop (branchCount (depth + 1))
      (fun _ t =>
        grow M rng depth (endPos pos dir (depth + 1))
          (newDir M dir (rng t.draws) (rng (t.draws + 1)))
          { t with draws := t.draws + 2 })
      (spawn M rng (depth + 1) pos dir s)

/-- One pass of the loop at lines 219-223: four random values give the start position and
direction of a root stem, which is grown from depth `iterations`. -/
def growStem (M : JSMath α) (rng : ℕ → α) (s : Plant α) : Plant α :=
  let r := fun k => rng (s.draws + k)
  grow M rng iterations
    ⟨(r 0 - 0.5) * 0.5, 0, (r 1 - 0.5) * 0.5⟩
    (Vector3.normalize M ⟨(r 2 - 0.5) * 0.2, 1, (r 3 - 0.5) * 0.2⟩)
    { s with draws := s.draws + 4 }

/-- The function `generateBougainvillea()`, run on the empty plant. -/
def generateBougainvillea (M : JSMath α) (rng : ℕ → α) : Plant α :=
  forLoop 4 (fun _ s => growStem M rng s) Plant.empty

/-- The recursion of `grow` with the guard and the decrement written as in the source and
an explicit budget of nested calls: `none` means the budget ran out. -/
def growFuel (M : JSMath α) (rng : ℕ → α) :
    ℕ → ℕ → Vector3 α → Vector3 α → Plant α → Option (Plant α)
  | 0, _, _, _, _ => none
  | fuel + 1, depth, pos, dir, s =>
    if depth > 0 then
      forLoop (branchCount depth)
        (fun _ (o : Option (Plant α)) =>
          o.bind fun t =>
            growFuel M rng fuel (depth - 1) (endPos pos dir depth)
              (newDir M dir (rng t.draws) (rng (t.draws + 1)))
              { t with draws := t.draws + 2 })
        (some (spawn M rng depth pos dir s))
    else some (spawn M rng depth pos dir s)

/-- The function `generateBougainvillea()` over `growFuel`. -/
def generateFuel (M : JSMath α) (rng : ℕ → α) (fuel : ℕ) : Option (Plant α) :=
  forLoop 4
    (fun _ (o : Option (Plant α)) =>
      o.bind fun s =>
        let r := fun k => rng (s.draws + k)
        growFuel M rng fuel iterations
          ⟨(r 0 - 0.5) * 0.5, 0, (r 1 - 0.5) * 0.5⟩
          (Vector3.normalize M ⟨(r 2 - 0.5) * 0.2, 1, (r 3 - 0.5) * 0.2⟩)
          { s with draws := s.draws + 4 })
    (some Plant.empty)

end Generate

/-! ## The call tree of `grow` -/

/-- The list `l` repeated `n` times. -/
def repeated {β : Type} : ℕ → List β → List β
  | 0, _ => []
  | n + 1, l => repeated n l ++ l

/-- The depths of the calls of `grow` that one call at depth `d` gives rise to, itself
included, in the order in which they are made. -/
def visited : ℕ → List ℕ
  | 0 => [0]
  | d + 1 => (d + 1) :: repeated (branchCount (d + 1)) (visited d)

/-- The depths of all calls of `grow` made by `generateBougainvillea`. -/
def visitedAll : List ℕ := repeated 4 (visited iterations)

/-- Number of leaves one call of `grow` pushes itself (lines 169-179). -/
def leafSpawn (depth : ℕ) : ℕ := if depth ≤ 3 then leafCount depth else 0

/-- Number of clusters one call of `grow` pushes itself (lines 169 and 181-204). -/
def clusterSpawn (depth : ℕ) : ℕ :=
  if depth ≤ 3 then (if depth ≤ 2 then clusterCount depth else 0) else 0

/-- Number of branch meshes of the plant whose thickness is `k * 0.2`, the thickness
`grow` gives the segment of a call at depth `k`. -/
def segmentsAt {α : Type} [LinearOrderedField α] (k : ℕ) (p : Plant α) : ℕ :=
  (p.branches.filter (fun b => decide (b.scale.x = (k : α) * 0.2))).length

/-- The fields the members of one cluster have in common: position, jitter and speed. -/
def BractData.shared {α : Type} (b : BractData α) : Vector3 α × α × α :=
  (b.pos, b.jitter, b.speed)

/-- The same three fields of a flower centre. -/
def CenterData.shared {α : Type} (c : CenterData α) : Vector3 α × α × α :=
  (c.pos, c.jitter, c.speed)

/-- Every entry of a list three times in a row. -/
def tripled {β : Type} : List β → List β
  | [] => []
  | a :: l => a :: a :: a :: tripled l

/-- The ranges of the generated descriptors, as a property of a plant. -/
def InRanges {α : Type} [LinearOrderedField α] (p : Plant α) : Prop :=
  (∀ l ∈ p.leavesData, (0.6 ≤ l.scale ∧ l.scale ≤ 0.9) ∧ (0.4 ≤ l.speed ∧ l.speed ≤ 0.6)) ∧
  (∀ b ∈ p.bractsData, (0.6 ≤ b.scale ∧ b.scale ≤ 0.8) ∧ (1.3 ≤ b.speed ∧ b.speed ≤ 1.8)) ∧
  (∀ c ∈ p.centersData, c.scale = 0.5)

/-! ## The animation loop (`--- ANIMATION LOOP ---`) -/

/-- What `animate` writes: the rotation of `plantGroup`, the scratch object `dummy` and the
instance matrices of the three instanced meshes. -/
structure RenderState (α : Type) where
  plantGroup : Object3D α
  dummy : Object3D α
  iLeaves : List (Matrix4 α)
  iBracts : List (Matrix4 α)
  iCenters : List (Matrix4 α)
deriving DecidableEq

section Animate

variable {α : Type} [LinearOrderedField α]

/-- The Euler angles `animate` gives a leaf (lines 264-268). -/
def leafRotation (M : JSMath α) (t w : α) (data : LeafData α) : Euler α :=
  ⟨data.rotation.x + M.sin (t * data.speed + data.jitter) * 0.04 * w,
   data.rotation.y + M.cos (t * data.speed * 0.8 + data.jitter) * 0.06 * w,
   data.rotation.z + M.sin (t * data.speed * 1.2 + data.jitter) * 0.03 * w⟩

/-- The pose of `dummy` after lines 263-270, for one leaf. -/
def leafPose (M : JSMath α) (t w : α) (data : LeafData α) (dummy : Object3D α) :
    Object3D α :=
  Object3D.updateMatrix
    (Object3D.scaleSetScalar
      (Object3D.rotationCopy M (Object3D.positionCopy dummy data.position)
        (leafRotation M t w data))
      data.scale)

/-- The pose of `dummy` after lines 277-282, for one bract. -/
def bractPose (M : JSMath α) (t w : α) (data : BractData α) (dummy : Object3D α) :
    Object3D α :=
  Object3D.updateMatrix
    (Object3D.scaleSetScalar
      (Object3D.rotateY M
        (Object3D.rotateX M
          (Object3D.rotationCopy M (Object3D.positionCopy dummy data.pos) data.rot)
          (M.sin (t * data.speed * 2.2 + data.jitter) * 0.15 * w))
        (M.cos (t * data.speed * 2.8 + data.jitter) * 0.2 * w))
      data.scale)

/-- The pose of `dummy` after lines 289-292, for one flower centre. -/
def centerPose (M : JSMath α) (data : CenterData α) (dummy : Object3D α) : Object3D α :=
  Object3D.updateMatrix
    (Object3D.scaleSetScalar
      (Object3D.rotationCopy M (Object3D.positionCopy dummy data.pos) data.rot)
      data.scale)

/-- One pass of the leaf loop of `animate`; `setMatrixAt(i, m)` overwrites entry `i`. -/
def animateLeaf (M : JSMath α) (t w : α) (leavesData : List (LeafData α)) (i : ℕ)
    (st : RenderState α) : RenderState α :=
  match leavesData[i]? with
  | some data =>
    let dummy := leafPose M t w data st.dummy
    { st with dummy := dummy, iLeaves := st.iLeaves.set i dummy.matrix }
  | none => st

/-- One pass of the bract loop of `animate`. -/
def animateBract (M : JSMath α) (t w : α) (bractsData : List (BractData α)) (i : ℕ)
    (st : RenderState α) : RenderState α :=
  match bractsData[i]? with
  | some data =>
    let dummy := bractPose M t w data st.dummy
    { st with dummy := dummy, iBracts := st.iBracts.set i dummy.matrix }
  | none => st

/-- One pass of the centre loop of `animate`. -/
def animateCenter (M : JSMath α) (centersData : List (CenterData α)) (i : ℕ)
    (st : RenderState α) : RenderState α :=
  match centersData[i]? with
  | some data =>
    let dummy := centerPose M data st.dummy
    { st with dummy := dummy, iCenters := st.iCenters.set i dummy.matrix }
  | none => st

/-- Lines 258-259 of `animate`: the whole-plant sway. -/
def sway (M : JSMath α) (t w : α) (plantGroup : Object3D α) : Object3D α :=
  let g := Object3D.rotationCopy M plantGroup
    { plantGroup.rotation with x := M.sin (t * 0.3) * 0.02 * w }
  Object3D.rotationCopy M g { g.rotation with z := M.cos (t * 0.25) * 0.02 * w }

/-- The body of `animate` up to the draw call, for elapsed time `t` and wind strength `w`
(`windRef.current`). -/
def animate (M : JSMath α) (plant : Plant α) (t w : α) (st : RenderState α) :
    RenderState α :=
  let st0 := { st with plantGroup := sway M t w st.plantGroup }
  let st1 := forLoop plant.leavesData.length (animateLeaf M t w plant.leavesData) st0
  let st2 := forLoop plant.bractsData.length (animateBract M t w plant.bractsData) st1
  forLoop plant.centersData.length (animateCenter M plant.centersData) st2

/-- The instance matrices of `new THREE.InstancedMesh(geometry, material, count)`: `count`
identity matrices. -/
def instancedMesh (count : ℕ) : List (Matrix4 α) :=
  List.replicate count Matrix4.identity

/-- The render state the set-up effect creates for a plant (lines 145-146, 228-238 and
252): `plantGroup` at `(0, -1, 0)`, three instanced meshes sized to the descriptor arrays
and a fresh `dummy`. -/
def initialRender (plant : Plant α) : RenderState α :=
  { plantGroup := Object3D.positionCopy Object3D.new ⟨0, -1, 0⟩
    dummy := Object3D.new
    iLeaves := instancedMesh plant.leavesData.length
    iBracts := instancedMesh plant.bractsData.length
    iCenters := instancedMesh plant.centersData.length }

end Animate

/-! ## The component `App`: state, refs and effects -/

/-- The fields of the `THREE.DirectionalLight` that the program writes; a colour is its
hexadecimal value. -/
structure DirectionalLight (α : Type) where
  color : ℕ
  intensity : α
  position : Vector3 α
  quaternion : Quaternion α
deriving DecidableEq

/-- The fields of the `THREE.AmbientLight` that the program writes. -/
structure AmbientLight (α : Type) where
  color : ℕ
  intensity : α
deriving DecidableEq

/-- The field of the `THREE.Scene` that the program writes after creating it. -/
structure Scene where
  background : ℕ
deriving DecidableEq

/-- The state of the component: the four `useState` values, the refs, and the data the
set-up effect keeps in its closure (plant data and instance matrices). -/
structure App (α : Type) where
  wind : α
  sunAngle : α
  isNight : Bool
  showUI : Bool
  windRef : α
  sunAngleRef : α
  sunLightRef : Option (DirectionalLight α)
  ambientLightRef : Option (AmbientLight α)
  sceneRef : Option Scene
  plant : Plant α
  render : RenderState α
deriving DecidableEq

section Effects

variable {α : Type} [LinearOrderedField α]

/-- The effect with dependency `[wind]` (lines 20-22). -/
def windEffect (s : App α) : App α :=
  { s with windRef := s.wind }

/-- The effect with dependency `[isNight]` (lines 25-39). -/
def isNightEffect (s : App α) : App α :=
  match s.sceneRef, s.sunLightRef, s.ambientLightRef with
  | some scene, some sunLight, some ambient =>
    if s.isNight then
      { s with
        sceneRef := some { scene with background := 0x0a0b1e }
        sunLightRef := some { sunLight with color := 0xaaccff, intensity := 1.2 }
        ambientLightRef := some { ambient with intensity := 0.2 } }
    else
      { s with
        sceneRef := some { scene with background := 0xfcfbf9 }
        sunLightRef := some { sunLight with color := 0xffffff, intensity := 2.2 }
        ambientLightRef := some { ambient with intensity := 0.65 } }
  | _, _, _ => s

/-- The position computed at lines 45-47 from the sun angle. -/
def sunPosition (M : JSMath α) (sunAngle : α) : Vector3 α :=
  ⟨M.cos (sunAngle * M.PI) * 20, M.sin (sunAngle * M.PI) * 28 + 12, 0⟩

/-- The effect with dependency `[sunAngle]` (lines 42-52). The parameter `lookAt` is the
orientation three.js gives a light placed at its first argument and turned towards its
second. -/
def sunAngleEffect (M : JSMath α) (lookAt : Vector3 α → Vector3 α → Quaternion α)
    (s : App α) : App α :=
  match s.sunLightRef with
  | some sunLight =>
    { s with
      sunAngleRef := s.sunAngle
      sunLightRef := some
        { sunLight with
          position := sunPosition M s.sunAngle
          quaternion := lookAt (sunPosition M s.sunAngle) ⟨0, 2, 0⟩ } }
  | none => { s with sunAngleRef := s.sunAngle }

/-- The state setter `setIsNight(v)` followed by the render it schedules: React renders
again only when the value changed, and then runs the effects whose dependencies changed,
here the one depending on `isNight`. -/
def setIsNight (v : Bool) (s : App α) : App α :=
  if s.isNight = v then s else isNightEffect { s with isNight := v }

/-- The state setter `setSunAngle(a)` followed by the render it schedules. -/
def setSunAngle (M : JSMath α) (lookAt : Vector3 α → Vector3 α → Quaternion α) (a : α)
    (s : App α) : App α :=
  if s.sunAngle = a then s else sunAngleEffect M lookAt { s with sunAngle := a }

/-- The state setter `setWind(v)` followed by the render it schedules. -/
def setWind (v : α) (s : App α) : App α :=
  if s.wind = v then s else windEffect { s with wind := v }

/-! ## Mounting the component -/

/-- The constant `Object3D.DEFAULT_UP` of three.js. -/
def DEFAULT_UP : Vector3 α := ⟨0, 1, 0⟩

/-- The object `new THREE.DirectionalLight(color, intensity)`: the three.js constructor
copies `Object3D.DEFAULT_UP` into the position and leaves the orientation at the
identity. -/
def DirectionalLight.new (color : ℕ) (intensity : α) : DirectionalLight α :=
  { color := color, intensity := intensity, position := DEFAULT_UP,
    quaternion := ⟨0, 0, 0, 1⟩ }

/-- The state of the component when it is first rendered: the initial values of the four
`useState` calls and of the refs (lines 8-17). Nothing has been created yet, so the plant
is empty and the render state is the one of the empty plant. -/
def App.initial : App α :=
  { wind := 1.5
    sunAngle := 0.5
    isNight := false
    showUI := true
    windRef := 1.5
    sunAngleRef := 0.5
    sunLightRef := none
    ambientLightRef := none
    sceneRef := none
    plant := Plant.empty
    render := initialRender Plant.empty }

/-- The effect with dependency `[]` (lines 54-302) when the container element is mounted,
up to and including the first call `animate()` at line 302, which renders the first frame
at elapsed time `t0`: the scene with its background, the ambient light and the directional
light are created and stored in the refs, the plant is generated and the instanced meshes
are created and posed. Nothing between the creation of `sunLight` (line 83) and the first
frame writes its position. -/
def setupEffect (M : JSMath α) (rng : ℕ → α) (t0 : α) (s : App α) : App α :=
  { s with
    sceneRef := some { background := 0xfcfbf9 }
    ambientLightRef := some { color := 0xffffff, intensity := 0.65 }
    sunLightRef := some (DirectionalLight.new 0xffffff 2.2)
    plant := generateBougainvillea M rng
    render := animate M (generateBougainvillea M rng) t0 s.windRef
      (initialRender (generateBougainvillea M rng)) }

/-- The four effects of the component in the order in which they are declared, which is
the order in which React runs them after a commit. -/
def runEffects (M : JSMath α) (lookAt : Vector3 α → Vector3 α → Quaternion α)
    (rng : ℕ → α) (t0 : α) (s : App α) : App α :=
  setupEffect M rng t0 (sunAngleEffect M lookAt (isNightEffect (windEffect s)))

/-- Mounting the component: the first render followed by all effects. The state it
returns is the one in which the first frame is rendered. -/
def mount (M : JSMath α) (lookAt : Vector3 α → Vector3 α → Quaternion α) (rng : ℕ → α)
    (t0 : α) : App α :=
  runEffects M lookAt rng t0 App.initial

/-- Mounting under `React.StrictMode` in a development build (lines 481-485): after the
first mount React runs the clean-up functions, which write none of the fields modelled
here, and then runs all effects a second time on the same state and refs. The second
generation continues the random source where the first stopped. -/
def strictMount (M : JSMath α) (lookAt : Vector3 α → Vector3 α → Quaternion α)
    (rng : ℕ → α) (t0 t1 : α) : App α :=
  runEffects M lookAt (fun n => rng ((mount M lookAt rng t0).plant.draws + n)) t1
    (mount M lookAt rng t0)

/-- One later call of `animate` (line 299), at elapsed time `t`. -/
def frame (M : JSMath α) (t : α) (s : App α) : App α :=
  { s with render := animate M s.plant t s.windRef s.render }

/-- What can happen between two rendered frames: the slider sets the sun angle, a mode
button sets the mode, a wind button sets the wind, or the next frame is drawn. -/
inductive Event (α : Type) where
  | sunAngle (a : α)
  | night (v : Bool)
  | wind (v : α)
  | tick (t : α)

/-- The state after one event. -/
def step (M : JSMath α) (lookAt : Vector3 α → Vector3 α → Quaternion α) (s : App α) :
    Event α → App α
  | Event.sunAngle a => setSunAngle M lookAt a s
  | Event.night v => setIsNight v s
  | Event.wind v => setWind v s
  | Event.tick t => frame M t s

/-- The state after a sequence of events. -/
def run (M : JSMath α) (lookAt : Vector3 α → Vector3 α → Quaternion α) (s : App α)
    (events : List (Event α)) : App α :=
  events.foldl (step M lookAt) s

/-- Whether the event is a move of the sun-angle slider. -/
def Event.isSunAngle : Event α → Bool
  | Event.sunAngle _ => true
  | _ => false

/-- The light of the state sits where the sun angle of the state puts it. -/
def Synced (M : JSMath α) (s : App α) : Prop :=
  s.sunLightRef.map (fun l => l.position) = some (sunPosition M s.sunAngle)

end Effects

/-! ## IEEE binary64 arithmetic for the light position -/

/-- The integer nearest to a real number, the even one of the two when it lies half-way
between them. -/
noncomputable def roundNearestEven (r : ℝ) : ℤ :=
  if Int.fract r < 1 / 2 then ⌊r⌋
  else if 1 / 2 < Int.fract r then ⌊r⌋ + 1
  else if Even ⌊r⌋ then ⌊r⌋ else ⌊r⌋ + 1

/-- The spacing of the binary64 numbers around `x`: two to the power `e - 52`, where `e` is
the binary exponent of `x`, at least the exponent -1022 of the subnormal numbers. -/
noncomputable def ulp (x : ℝ) : ℝ :=
  (2 : ℝ) ^ (max (Int.log 2 |x|) (-1022) - 52)

/-- The binary64 number nearest to the real number `x`, ties to even: the value a
JavaScript arithmetic operation returns when its exact result is `x`. Overflow to
infinity is left out; the light position stays far from it. -/
noncomputable def fl (x : ℝ) : ℝ :=
  (roundNearestEven (x / ulp x) : ℝ) * ulp x

/-- The `Math` object in binary64: `Math.PI` is the binary64 number nearest to pi,
`884279719003555 / 2^48`, and each function returns the binary64 number nearest to the
exact value, which is what the JavaScript engines return at the arguments used for the
light position. -/
noncomputable def doubleMath : JSMath ℝ where
  PI := 884279719003555 / 2 ^ 48
  sin := fun x => fl (Real.sin x)
  cos := fun x => fl (Real.cos x)
  sqrt := fun x => fl (Real.sqrt x)
  asin := fun x => fl (Real.arcsin x)
  atan2 := fun y x => fl (Complex.arg ⟨x, y⟩)

/-- Lines 45-47 in binary64, the number type of JavaScript: every multiplication and
addition returns the binary64 number nearest to its exact result. -/
noncomputable def sunPositionDouble (sunAngle : ℝ) : Vector3 ℝ :=
  ⟨fl (doubleMath.cos (fl (sunAngle * doubleMath.PI)) * 20),
   fl (fl (doubleMath.sin (fl (sunAngle * doubleMath.PI)) * 28) + 12),
   0⟩

end DappledLight

namespace DappledLight

/-! ## Counted loops -/

theorem forLoop_invariant {σ : Type} (P : σ → Prop) (body : ℕ → σ → σ)
    (hstep : ∀ i t, P t → P (body i t)) (n : ℕ) (s : σ) (h0 : P s) :
    P (forLoop n body s) := by
  induction n with
  | zero => exact h0
  | succ n ih => exact hstep n _ ih

theorem forLoop_add {σ : Type} (f : σ → ℕ) (c : ℕ) (body : ℕ → σ → σ)
    (hstep : ∀ i t, f (body i t) = f t + c) (n : ℕ) (s : σ) :
    f (forLoop n body s) = f s + n * c := by
  induction n with
  | zero => simp [forLoop]
  | succ n ih => rw [forLoop, hstep, ih]; ring

theorem forLoop_some {σ : Type} (body : ℕ → σ → σ) (step : ℕ → σ → Option σ)
    (hstep : ∀ i t, step i t = some (body i t)) (n : ℕ) (s : σ) :
    forLoop n (fun i (o : Option σ) => o.bind (step i)) (some s) =
      some (forLoop n body s) := by
  induction n with
  | zero => rfl
  | succ n ih =>
    show (forLoop n (fun i (o : Option σ) => o.bind (step i)) (some s)).bind (step n) = _
    rw [ih, Option.some_bind, hstep]
    rfl

theorem forLoop_none {σ : Type} (step : ℕ → σ → Option σ)
    (hstep : ∀ i t, step i t = none) (n : ℕ) (o : Option σ) :
    forLoop (n + 1) (fun i (o : Option σ) => o.bind (step i)) o = none := by
  simp only [forLoop]
  cases forLoop n (fun i (o : Option σ) => o.bind (step i)) o with
  | none => rfl
  | some t => simp [hstep]

/-! ## Sums over the call tree -/

theorem sum_map_repeated (g : ℕ → ℕ) (n : ℕ) (l : List ℕ) :
    ((repeated n l).map g).sum = n * (l.map g).sum := by
  induction n with
  | zero => simp [repeated]
  | succ n ih => simp [repeated, ih]; ring

theorem sum_map_visited_succ (g : ℕ → ℕ) (d : ℕ) :
    ((visited (d + 1)).map g).sum =
      g (d + 1) + branchCount (d + 1) * ((visited d).map g).sum := by
  simp [visited, sum_map_repeated]

section GenerateLemmas

variable {α : Type} [LinearOrderedField α]

/-! ## Termination of `grow` -/

theorem growFuel_eq_grow (M : JSMath α) (rng : ℕ → α) :
    ∀ (d k : ℕ) (pos dir : Vector3 α) (s : Plant α),
      growFuel M rng (d + k + 1) d pos dir s = some (grow M rng d pos dir s) := by
  intro d
  induction d with
  | zero =>
    intro k pos dir s
    simp [growFuel, grow]
  | succ d ih =>
    intro k pos dir s
    have hfuel : d + 1 + k = d + k + 1 := by omega
    simp only [growFuel, grow, Nat.succ_pos, ↓reduceIte, gt_iff_lt, Nat.add_sub_cancel, hfuel]
    exact forLoop_some _ _ (fun i t => ih k _ _ _) _ _

theorem branchCount_pos (d : ℕ) : ∃ n, branchCount d = n + 1 := by
  unfold branchCount
  split
  · exact ⟨4, rfl⟩
  · exact ⟨1, rfl⟩

theorem growFuel_short (M : JSMath α) (rng : ℕ → α) :
    ∀ (d : ℕ) (pos dir : Vector3 α) (s : Plant α), growFuel M rng d d pos dir s = none := by
  intro d
  induction d with
  | zero => intro pos dir s; rfl
  | succ d ih =>
    intro pos dir s
    obtain ⟨n, hn⟩ := branchCount_pos (d + 1)
    simp only [growFuel, Nat.succ_pos, ↓reduceIte, gt_iff_lt, Nat.add_sub_cancel, hn]
    exact forLoop_none _ (fun i t => ih _ _ _) _ _

theorem generateFuel_eq (M : JSMath α) (rng : ℕ → α) (k : ℕ) :
    generateFuel M rng (iterations + k + 1) = some (generateBougainvillea M rng) := by
  unfold generateFuel generateBougainvillea
  exact forLoop_some _ _ (fun i t => growFuel_eq_grow M rng iterations k _ _ _) _ _

end GenerateLemmas

end DappledLight

namespace DappledLight

section SpawnLemmas

variable {α : Type} [LinearOrderedField α]

/-! ## What one pass of each loop of `grow` appends -/

theorem pushLeaf_leavesData (M : JSMath α) (rng : ℕ → α) (e : Vector3 α) (s : Plant α) :
    ∃ l : LeafData α,
      (pushLeaf M rng e s).leavesData = s.leavesData ++ [l] ∧
      l.scale = rng (s.draws + 6) * 0.3 + 0.6 ∧ l.speed = 0.4 + rng (s.draws + 8) * 0.2 :=
  ⟨_, rfl, rfl, rfl⟩

theorem pushLeaf_others (M : JSMath α) (rng : ℕ → α) (e : Vector3 α) (s : Plant α) :
    (pushLeaf M rng e s).branches = s.branches ∧
    (pushLeaf M rng e s).bractsData = s.bractsData ∧
    (pushLeaf M rng e s).centersData = s.centersData :=
  ⟨rfl, rfl, rfl⟩

theorem pushCluster_data (M : JSMath α) (rng : ℕ → α) (e : Vector3 α) (s : Plant α) :
    ∃ (b0 b1 b2 : BractData α) (c : CenterData α),
      (pushCluster M rng e s).bractsData = s.bractsData ++ [b0, b1, b2] ∧
      (pushCluster M rng e s).centersData = s.centersData ++ [c] ∧
      (b0.pos = c.pos ∧ b0.jitter = c.jitter ∧ b0.speed = c.speed) ∧
      (b1.pos = c.pos ∧ b1.jitter = c.jitter ∧ b1.speed = c.speed) ∧
      (b2.pos = c.pos ∧ b2.jitter = c.jitter ∧ b2.speed = c.speed) ∧
      b0.scale = 0.6 + rng (s.draws + 8) * 0.2 ∧
      b1.scale = 0.6 + rng (s.draws + 9) * 0.2 ∧
      b2.scale = 0.6 + rng (s.draws + 10) * 0.2 ∧
      c.speed = 1.3 + rng (s.draws + 7) * 0.5 ∧ c.scale = 0.5 := by
  let r := fun k => rng (s.draws + k)
  let p : Vector3 α := e.add ⟨(r 0 - 0.5) * 1.8, (r 1 - 0.5) * 1.8, (r 2 - 0.5) * 1.8⟩
  let rot : Euler α := ⟨r 3 * M.PI, r 4 * M.PI, r 5 * M.PI⟩
  refine ⟨⟨p, (bractDummy M p rot 0).rotation, 0.6 + r 8 * 0.2, r 6 * 100, 1.3 + r 7 * 0.5⟩,
    ⟨p, (bractDummy M p rot 1).rotation, 0.6 + r 9 * 0.2, r 6 * 100, 1.3 + r 7 * 0.5⟩,
    ⟨p, (bractDummy M p rot 2).rotation, 0.6 + r 10 * 0.2, r 6 * 100, 1.3 + r 7 * 0.5⟩,
    ⟨p, rot, 0.5, r 6 * 100, 1.3 + r 7 * 0.5⟩,
    ?_, rfl, ⟨rfl, rfl, rfl⟩, ⟨rfl, rfl, rfl⟩, ⟨rfl, rfl, rfl⟩, rfl, rfl, rfl, rfl, rfl⟩
  have hpos : ∀ i, (bractDummy M p rot i).position = p := fun i => rfl
  simp only [pushCluster, forLoop, pushBract, hpos, List.append_assoc, List.singleton_append,
    List.cons_append, List.nil_append]

theorem pushCluster_others (M : JSMath α) (rng : ℕ → α) (e : Vector3 α) (s : Plant α) :
    (pushCluster M rng e s).branches = s.branches ∧
    (pushCluster M rng e s).leavesData = s.leavesData :=
  ⟨rfl, rfl⟩

end SpawnLemmas

end DappledLight

namespace DappledLight

section GrowLemmas

variable {α : Type} [LinearOrderedField α]

/-! ## Invariants of the generator -/

theorem spawn_invariant (M : JSMath α) (rng : ℕ → α) (I : Plant α → Prop)
    (hbranch : ∀ d pos dir t, I t → I (addBranch M pos dir d t))
    (hleaf : ∀ e t, I t → I (pushLeaf M rng e t))
    (hcluster : ∀ e t, I t → I (pushCluster M rng e t))
    (d : ℕ) (pos dir : Vector3 α) (s : Plant α) (hs : I s) :
    I (spawn M rng d pos dir s) := by
  unfold spawn
  have h0 := hbranch d pos dir s hs
  have h1 := forLoop_invariant I (fun _ t => pushLeaf M rng (endPos pos dir d) t)
    (fun _ t ht => hleaf _ t ht) (leafCount d) _ h0
  have h2 := forLoop_invariant I (fun _ t => pushCluster M rng (endPos pos dir d) t)
    (fun _ t ht => hcluster _ t ht) (clusterCount d) _ h1
  simp only
  split
  · split
    · exact h2
    · exact h1
  · exact h0

theorem grow_invariant (M : JSMath α) (rng : ℕ → α) (I : Plant α → Prop)
    (hdraws : ∀ (t : Plant α) n, I t → I { t with draws := n })
    (hspawn : ∀ d pos dir t, I t → I (spawn M rng d pos dir t)) :
    ∀ (d : ℕ) (pos dir : Vector3 α) (s : Plant α), I s → I (grow M rng d pos dir s) := by
  intro d
  induction d with
  | zero => intro pos dir s hs; exact hspawn 0 pos dir s hs
  | succ d ih =>
    intro pos dir s hs
    rw [grow]
    exact forLoop_invariant I _ (fun _ t ht => ih _ _ _ (hdraws t _ ht)) _ _
      (hspawn _ pos dir s hs)

theorem generate_invariant (M : JSMath α) (rng : ℕ → α) (I : Plant α → Prop)
    (hdraws : ∀ (t : Plant α) n, I t → I { t with draws := n })
    (hspawn : ∀ d pos dir t, I t → I (spawn M rng d pos dir t))
    (h0 : I Plant.empty) : I (generateBougainvillea M rng) := by
  unfold generateBougainvillea
  exact forLoop_invariant I _
    (fun _ t ht => grow_invariant M rng I hdraws hspawn _ _ _ _ (hdraws t _ ht)) _ _ h0

/-! ## Counting over the call tree -/

theorem grow_count (M : JSMath α) (rng : ℕ → α) (f : Plant α → ℕ) (g : ℕ → ℕ)
    (hdraws : ∀ (t : Plant α) n, f { t with draws := n } = f t)
    (hspawn : ∀ d pos dir t, f (spawn M rng d pos dir t) = f t + g d) :
    ∀ (d : ℕ) (pos dir : Vector3 α) (s : Plant α),
      f (grow M rng d pos dir s) = f s + ((visited d).map g).sum := by
  intro d
  induction d with
  | zero => intro pos dir s; simp [grow, visited, hspawn]
  | succ d ih =>
    intro pos dir s
    rw [grow, forLoop_add f (((visited d).map g).sum) _ (fun _ t => by rw [ih, hdraws]),
      hspawn, sum_map_visited_succ]
    ring

theorem generate_count (M : JSMath α) (rng : ℕ → α) (f : Plant α → ℕ) (g : ℕ → ℕ)
    (hdraws : ∀ (t : Plant α) n, f { t with draws := n } = f t)
    (hspawn : ∀ d pos dir t, f (spawn M rng d pos dir t) = f t + g d) :
    f (generateBougainvillea M rng) = f Plant.empty + (visitedAll.map g).sum := by
  unfold generateBougainvillea visitedAll
  rw [forLoop_add f (((visited iterations).map g).sum) _
    (fun _ t => by rw [growStem, grow_count M rng f g hdraws hspawn, hdraws]),
    sum_map_repeated]

end GrowLemmas

end DappledLight

namespace DappledLight

theorem sum_map_visitedAll (g : ℕ → ℕ) :
    (visitedAll.map g).sum =
      4 * (g 5 + 5 * (g 4 + 2 * (g 3 + 2 * (g 2 + 2 * (g 1 + 2 * g 0))))) := by
  have h5 : branchCount 5 = 5 := by decide
  have h4 : branchCount 4 = 2 := by decide
  have h3 : branchCount 3 = 2 := by decide
  have h2 : branchCount 2 = 2 := by decide
  have h1 : branchCount 1 = 2 := by decide
  have h0 : ((visited 0).map g).sum = g 0 := by simp [visited]
  rw [visitedAll, sum_map_repeated]
  show 4 * ((visited 5).map g).sum = _
  rw [sum_map_visited_succ g 4, sum_map_visited_succ g 3, sum_map_visited_succ g 2,
    sum_map_visited_succ g 1, sum_map_visited_succ g 0, h0, h5, h4, h3, h2, h1]

theorem sum_map_filter (p : ℕ → Bool) (h : ℕ → ℕ) (l : List ℕ) :
    ((l.filter p).map h).sum = (l.map (fun d => if p d then h d else 0)).sum := by
  induction l with
  | nil => rfl
  | cons a l ih =>
    by_cases hp : p a = true
    · simp [List.filter_cons, hp, ih]
    · simp [List.filter_cons, hp, ih]

end DappledLight

namespace DappledLight

section CountLemmas

variable {α : Type} [LinearOrderedField α]

theorem spawn_count (M : JSMath α) (rng : ℕ → α) (f : Plant α → ℕ) (a : ℕ → ℕ) (b c : ℕ)
    (hbranch : ∀ d pos dir t, f (addBranch M pos dir d t) = f t + a d)
    (hleaf : ∀ e t, f (pushLeaf M rng e t) = f t + b)
    (hcluster : ∀ e t, f (pushCluster M rng e t) = f t + c)
    (d : ℕ) (pos dir : Vector3 α) (s : Plant α) :
    f (spawn M rng d pos dir s) =
      f s + (a d + leafSpawn d * b + clusterSpawn d * c) := by
  unfold spawn leafSpawn clusterSpawn
  by_cases h3 : d ≤ 3
  · by_cases h2 : d ≤ 2
    · simp only [h3, h2, ↓reduceIte]
      rw [forLoop_add f c _ (fun _ t => hcluster _ t), forLoop_add f b _ (fun _ t => hleaf _ t),
        hbranch]
      ring
    · simp only [h3, h2, ↓reduceIte]
      rw [forLoop_add f b _ (fun _ t => hleaf _ t), hbranch]
      ring
  · simp only [h3, ↓reduceIte]
    rw [hbranch]
    ring

theorem thickness_inj (d k : ℕ) : ((d : α) * 0.2 = (k : α) * 0.2) ↔ d = k := by
  constructor
  · intro h
    have h2 : (0.2 : α) ≠ 0 := by norm_num
    exact_mod_cast mul_right_cancel₀ h2 h
  · rintro rfl; rfl

theorem segmentsAt_addBranch (M : JSMath α) (k d : ℕ) (pos dir : Vector3 α) (t : Plant α) :
    segmentsAt k (addBranch M pos dir d t) = segmentsAt k t + (if d = k then 1 else 0) := by
  unfold segmentsAt addBranch
  by_cases h : d = k
  · simp [List.filter_append, List.filter_cons, h]
  · have hne : ¬ ((d : α) * 0.2 = (k : α) * 0.2) := by rw [thickness_inj]; exact h
    simp [List.filter_append, List.filter_cons, hne, h, -mul_eq_mul_right_iff]

theorem segmentsAt_grow (M : JSMath α) (rng : ℕ → α) (k : ℕ) (d : ℕ) (pos dir : Vector3 α)
    (s : Plant α) :
    segmentsAt k (grow M rng d pos dir s) =
      segmentsAt k s + ((visited d).map (fun d => if d = k then 1 else 0)).sum :=
  grow_count M rng (segmentsAt k) _ (fun _ _ => rfl)
    (fun d pos dir t => by
      rw [spawn_count M rng (segmentsAt k) (fun d => if d = k then 1 else 0) 0 0
        (segmentsAt_addBranch M k) (fun _ _ => rfl) (fun _ _ => rfl)]
      simp) d pos dir s

theorem segmentsAt_generate (M : JSMath α) (rng : ℕ → α) (k : ℕ) :
    segmentsAt k (generateBougainvillea M rng) =
      (visitedAll.map (fun d => if d = k then 1 else 0)).sum := by
  have h := generate_count M rng (segmentsAt k) (fun d => if d = k then 1 else 0)
    (fun _ _ => rfl)
    (fun d pos dir t => by
      rw [spawn_count M rng (segmentsAt k) (fun d => if d = k then 1 else 0) 0 0
        (segmentsAt_addBranch M k) (fun _ _ => rfl) (fun _ _ => rfl)]
      simp)
  rw [h]
  simp [segmentsAt, Plant.empty]

end CountLemmas

section Claims

variable {α : Type} [LinearOrderedField α]

/-- C1: `grow` terminates for every natural-number depth and every random source. With a
budget of `d + 1` nested calls (or more) the recursion written with the guard `depth > 0`
and the decrement `depth - 1` of the source returns, and returns the plant of `grow`; a
budget of `d` is not enough, so the calls really nest `d + 1` deep, one level per
decrement down to depth 0, where no further call is made. `generateBougainvillea`
therefore returns as well, and the plant it returns holds exactly 4 segments of root
thickness `5 * 0.2`, one for each top-level call `grow(_, _, iterations)`. -/
theorem grow_terminates (M : JSMath α) (rng : ℕ → α) :
    (∀ (d k : ℕ) (pos dir : Vector3 α) (s : Plant α),
      growFuel M rng (d + k + 1) d pos dir s = some (grow M rng d pos dir s)) ∧
    (∀ (d : ℕ) (pos dir : Vector3 α) (s : Plant α), growFuel M rng d d pos dir s = none) ∧
    (∀ (pos dir : Vector3 α) (s : Plant α),
      growFuel M rng 1 0 pos dir s = some (spawn M rng 0 pos dir s)) ∧
    (∀ k, generateFuel M rng (iterations + k + 1) = some (generateBougainvillea M rng)) ∧
    iterations = 5 ∧
    segmentsAt iterations (generateBougainvillea M rng) = 4 := by
  refine ⟨growFuel_eq_grow M rng, growFuel_short M rng, fun _ _ _ => rfl,
    generateFuel_eq M rng, rfl, ?_⟩
  rw [segmentsAt_generate, sum_map_visitedAll]
  decide

end Claims

end DappledLight

namespace DappledLight

theorem sum_indicator_eq_count (k : ℕ) (l : List ℕ) :
    (l.map (fun d => if d = k then 1 else 0)).sum = l.count k := by
  induction l with
  | nil => rfl
  | cons a l ih =>
    by_cases h : a = k
    · subst h; simp [ih]; omega
    · simp [List.count_cons, h, ih]

section CountClaims

variable {α : Type} [LinearOrderedField α]

theorem spawn_leaves (M : JSMath α) (rng : ℕ → α) (d : ℕ) (pos dir : Vector3 α)
    (s : Plant α) :
    (spawn M rng d pos dir s).leavesData.length = s.leavesData.length + leafSpawn d := by
  rw [spawn_count M rng (fun p => p.leavesData.length) (fun _ => 0) 1 0
    (fun _ _ _ _ => rfl) (fun _ _ => by simp [pushLeaf]) (fun _ _ => rfl)]
  simp

theorem spawn_centers (M : JSMath α) (rng : ℕ → α) (d : ℕ) (pos dir : Vector3 α)
    (s : Plant α) :
    (spawn M rng d pos dir s).centersData.length =
      s.centersData.length + clusterSpawn d := by
  rw [spawn_count M rng (fun p => p.centersData.length) (fun _ => 0) 0 1
    (fun _ _ _ _ => rfl) (fun _ _ => rfl)
    (fun e t => by
      obtain ⟨_, _, _, _, _, hc, _⟩ := pushCluster_data M rng e t
      simp [hc])]
  simp

theorem spawn_branches (M : JSMath α) (rng : ℕ → α) (d : ℕ) (pos dir : Vector3 α)
    (s : Plant α) :
    (spawn M rng d pos dir s).branches.length = s.branches.length + 1 := by
  rw [spawn_count M rng (fun p => p.branches.length) (fun _ => 1) 0 0
    (fun _ _ _ _ => by simp [addBranch]) (fun _ _ => rfl) (fun _ _ => rfl)]
  simp

/-- C2: for every random source, a call of `grow` at depth `d` pushes 10 leaves when
`d = 1`, 4 leaves when `d` is 0, 2 or 3, and none when `d > 3` (so none at depth 4 or 5).
The list `visitedAll` holds the depths of the calls of `grow` made by
`generateBougainvillea` (for every `k` the plant has as many segments of thickness
`k * 0.2` as the list has entries `k`), and the length of `leavesData` afterwards is the
sum, over the entries of depth at most 3, of 10 for depth 1 and 4 otherwise, which is
3360. -/
theorem leaves_total (M : JSMath α) (rng : ℕ → α) :
    (∀ (d : ℕ) (pos dir : Vector3 α) (s : Plant α),
      (spawn M rng d pos dir s).leavesData.length =
        s.leavesData.length + (if d ≤ 3 then (if d = 1 then 10 else 4) else 0)) ∧
    (∀ k, segmentsAt k (generateBougainvillea M rng) = visitedAll.count k) ∧
    (generateBougainvillea M rng).leavesData.length =
      ((visitedAll.filter (fun d => decide (d ≤ 3))).map
        (fun d => if d = 1 then 10 else 4)).sum ∧
    (generateBougainvillea M rng).leavesData.length = 3360 := by
  have hlen : (generateBougainvillea M rng).leavesData.length =
      (visitedAll.map leafSpawn).sum := by
    have h := generate_count M rng (fun p => p.leavesData.length) leafSpawn
      (fun _ _ => rfl) (spawn_leaves M rng)
    simpa [Plant.empty] using h
  refine ⟨fun d pos dir s => spawn_leaves M rng d pos dir s, ?_, ?_, ?_⟩
  · intro k
    rw [segmentsAt_generate, sum_indicator_eq_count]
  · rw [hlen, sum_map_filter, sum_map_visitedAll, sum_map_visitedAll]
    decide
  · rw [hlen, sum_map_visitedAll]
    decide

/-- C3: for every random source, a call of `grow` at depth `d` pushes 8 clusters (one
entry of `centersData` each) when `d = 1`, 3 when `d` is 0 or 2, and none when `d ≥ 3` (so
none at depth 3, 4 or 5). Summed over the calls made by `generateBougainvillea`, whose
depths are the entries of `visitedAll`, the length of `centersData` is 2480. -/
theorem clusters_total (M : JSMath α) (rng : ℕ → α) :
    (∀ (d : ℕ) (pos dir : Vector3 α) (s : Plant α),
      (spawn M rng d pos dir s).centersData.length =
        s.centersData.length +
          (if d = 1 then 8 else if d = 0 ∨ d = 2 then 3 else 0)) ∧
    (∀ k, segmentsAt k (generateBougainvillea M rng) = visitedAll.count k) ∧
    (generateBougainvillea M rng).centersData.length =
      ((visitedAll.filter (fun d => decide (d ≤ 2))).map
        (fun d => if d = 1 then 8 else 3)).sum ∧
    (generateBougainvillea M rng).centersData.length = 2480 := by
  have hlen : (generateBougainvillea M rng).centersData.length =
      (visitedAll.map clusterSpawn).sum := by
    have h := generate_count M rng (fun p => p.centersData.length) clusterSpawn
      (fun _ _ => rfl) (spawn_centers M rng)
    simpa [Plant.empty] using h
  refine ⟨fun d pos dir s => ?_, ?_, ?_, ?_⟩
  · have hcs : clusterSpawn d = (if d = 1 then 8 else if d = 0 ∨ d = 2 then 3 else 0) := by
      unfold clusterSpawn clusterCount
      by_cases h1 : d = 1
      · subst h1; rfl
      · by_cases h2 : d ≤ 2
        · have h02 : d = 0 ∨ d = 2 := by omega
          have h3 : d ≤ 3 := by omega
          simp [h1, h2, h3, h02]
        · have h02 : ¬ (d = 0 ∨ d = 2) := by omega
          simp [h1, h2, h02]
    rw [spawn_centers, hcs]
  · intro k
    rw [segmentsAt_generate, sum_indicator_eq_count]
  · rw [hlen, sum_map_filter, sum_map_visitedAll, sum_map_visitedAll]
    simp [clusterSpawn, clusterCount]
  · rw [hlen, sum_map_visitedAll]
    decide

end CountClaims

end DappledLight

namespace DappledLight

theorem sum_map_visited_five (g : ℕ → ℕ) :
    ((visited 5).map g).sum = g 5 + 5 * (g 4 + 2 * (g 3 + 2 * (g 2 + 2 * (g 1 + 2 * g 0)))) := by
  have h5 : branchCount 5 = 5 := by decide
  have h4 : branchCount 4 = 2 := by decide
  have h3 : branchCount 3 = 2 := by decide
  have h2 : branchCount 2 = 2 := by decide
  have h1 : branchCount 1 = 2 := by decide
  have h0 : ((visited 0).map g).sum = g 0 := by simp [visited]
  rw [sum_map_visited_succ g 4, sum_map_visited_succ g 3, sum_map_visited_succ g 2,
    sum_map_visited_succ g 1, sum_map_visited_succ g 0, h0, h5, h4, h3, h2, h1]

theorem sum_indicator_visited_above (k : ℕ) :
    ∀ d, d < k → ((visited d).map (fun d => if d = k then 1 else 0)).sum = 0 := by
  intro d
  induction d with
  | zero =>
    intro h
    have h0 : ¬ (0 = k) := by omega
    simp [visited, h0]
  | succ d ih =>
    intro h
    have h0 : ¬ (d + 1 = k) := by omega
    rw [sum_map_visited_succ, ih (by omega)]
    simp [h0]

theorem sum_indicator_visited_self (d : ℕ) :
    ((visited d).map (fun e => if e = d then 1 else 0)).sum = 1 := by
  cases d with
  | zero => simp [visited]
  | succ d =>
    rw [sum_map_visited_succ, sum_indicator_visited_above (d + 1) d (by omega)]
    simp

section SegmentClaims

variable {α : Type} [LinearOrderedField α]

theorem grow_branches (M : JSMath α) (rng : ℕ → α) (d : ℕ) (pos dir : Vector3 α)
    (s : Plant α) :
    (grow M rng d pos dir s).branches.length =
      s.branches.length + ((visited d).map (fun _ => 1)).sum :=
  grow_count M rng (fun p => p.branches.length) (fun _ => 1) (fun _ _ => rfl)
    (spawn_branches M rng) d pos dir s

/-- C5: for every random source, every call of `grow` emits exactly one branch segment
(its body adds one mesh, of thickness `depth * 0.2`). A call at depth 5 produces exactly 5
segments of depth 4 and a call at depth 1, 2, 3 or 4 exactly 2 segments of the depth
below, one per recursive call; a call at depth 0 produces its own segment and nothing
else. One root stem consists of 1, 5, 10, 20, 40, 80 segments at depths 5, 4, 3, 2, 1, 0,
156 in all, and the whole plant of 624 segments. -/
theorem segments_total (M : JSMath α) (rng : ℕ → α) :
    (∀ (d : ℕ) (pos dir : Vector3 α) (s : Plant α),
      (spawn M rng d pos dir s).branches.length = s.branches.length + 1 ∧
      segmentsAt d (grow M rng d pos dir s) = segmentsAt d s + 1) ∧
    (∀ (pos dir : Vector3 α) (s : Plant α),
      segmentsAt 4 (grow M rng 5 pos dir s) = segmentsAt 4 s + 5 ∧
      segmentsAt 3 (grow M rng 4 pos dir s) = segmentsAt 3 s + 2 ∧
      segmentsAt 2 (grow M rng 3 pos dir s) = segmentsAt 2 s + 2 ∧
      segmentsAt 1 (grow M rng 2 pos dir s) = segmentsAt 1 s + 2 ∧
      segmentsAt 0 (grow M rng 1 pos dir s) = segmentsAt 0 s + 2 ∧
      (grow M rng 0 pos dir s).branches.length = s.branches.length + 1) ∧
    (∀ s : Plant α,
      segmentsAt 5 (growStem M rng s) = segmentsAt 5 s + 1 ∧
      segmentsAt 4 (growStem M rng s) = segmentsAt 4 s + 5 ∧
      segmentsAt 3 (growStem M rng s) = segmentsAt 3 s + 10 ∧
      segmentsAt 2 (growStem M rng s) = segmentsAt 2 s + 20 ∧
      segmentsAt 1 (growStem M rng s) = segmentsAt 1 s + 40 ∧
      segmentsAt 0 (growStem M rng s) = segmentsAt 0 s + 80 ∧
      (growStem M rng s).branches.length = s.branches.length + 156) ∧
    (generateBougainvillea M rng).branches.length = 624 := by
  have hstem : ∀ (k : ℕ) (s : Plant α), segmentsAt k (growStem M rng s) =
      segmentsAt k s + ((visited 5).map (fun d => if d = k then 1 else 0)).sum := by
    intro k s
    rw [growStem, iterations, segmentsAt_grow]
    rfl
  refine ⟨fun d pos dir s => ⟨spawn_branches M rng d pos dir s, ?_⟩,
    fun pos dir s => ⟨?_, ?_, ?_, ?_, ?_, ?_⟩,
    fun s => ⟨?_, ?_, ?_, ?_, ?_, ?_, ?_⟩, ?_⟩
  · rw [segmentsAt_grow, sum_indicator_visited_self]
  · rw [segmentsAt_grow, sum_map_visited_five]; rfl
  · rw [segmentsAt_grow, sum_map_visited_succ]; simp [visited, repeated, branchCount, iterations]
  · rw [segmentsAt_grow, sum_map_visited_succ]; simp [visited, repeated, branchCount, iterations]
  · rw [segmentsAt_grow, sum_map_visited_succ]; simp [visited, repeated, branchCount, iterations]
  · rw [segmentsAt_grow, sum_map_visited_succ]; simp [visited, repeated, branchCount, iterations]
  · rw [grow_branches]; rfl
  · rw [hstem, sum_map_visited_five]; rfl
  · rw [hstem, sum_map_visited_five]; rfl
  · rw [hstem, sum_map_visited_five]; rfl
  · rw [hstem, sum_map_visited_five]; rfl
  · rw [hstem, sum_map_visited_five]; rfl
  · rw [hstem, sum_map_visited_five]; rfl
  · rw [growStem, iterations, grow_branches, sum_map_visited_five]
  · have h := generate_count M rng (fun p => p.branches.length) (fun _ => 1)
      (fun _ _ => rfl) (spawn_branches M rng)
    simp only [] at h
    rw [h, sum_map_visitedAll]
    rfl

end SegmentClaims

end DappledLight

namespace DappledLight

/-! ## Clusters: three bracts and one centre -/

theorem tripled_append {β : Type} (l₁ l₂ : List β) :
    tripled (l₁ ++ l₂) = tripled l₁ ++ tripled l₂ := by
  induction l₁ with
  | nil => rfl
  | cons a l ih => simp [tripled, ih]

theorem tripled_length {β : Type} (l : List β) : (tripled l).length = 3 * l.length := by
  induction l with
  | nil => rfl
  | cons a l ih => simp [tripled, ih]; ring

theorem tripled_getElem? {β : Type} (l : List β) :
    ∀ k j, j < 3 → (tripled l)[3 * k + j]? = l[k]? := by
  induction l with
  | nil => intro k j _; simp [tripled]
  | cons a l ih =>
    intro k j hj
    cases k with
    | zero =>
      have h3 : j = 0 ∨ j = 1 ∨ j = 2 := by omega
      rcases h3 with rfl | rfl | rfl <;> simp [tripled]
    | succ k =>
      have h3 : 3 * (k + 1) + j = (3 * k + j) + 1 + 1 + 1 := by ring
      rw [h3]
      simp only [tripled, List.getElem?_cons_succ]
      exact ih k j hj

section ClusterLemmas

variable {α : Type} [LinearOrderedField α]

theorem generate_clusters (M : JSMath α) (rng : ℕ → α) :
    (generateBougainvillea M rng).bractsData.map BractData.shared =
      tripled ((generateBougainvillea M rng).centersData.map CenterData.shared) := by
  apply generate_invariant M rng
    (fun p => p.bractsData.map BractData.shared = tripled (p.centersData.map CenterData.shared))
  · intro t n h; exact h
  · intro d pos dir t ht
    apply spawn_invariant M rng
      (fun p => p.bractsData.map BractData.shared =
        tripled (p.centersData.map CenterData.shared)) _ _ _ d pos dir t ht
    · intro d pos dir t h; exact h
    · intro e t h; exact h
    · intro e t h
      obtain ⟨b0, b1, b2, c, hb, hc, ⟨p0, j0, s0⟩, ⟨p1, j1, s1⟩, ⟨p2, j2, s2⟩, -⟩ :=
        pushCluster_data M rng e t
      simp only [] at h ⊢
      rw [hb, hc, List.map_append, List.map_append, tripled_append, h]
      simp [tripled, BractData.shared, CenterData.shared, p0, j0, s0, p1, j1, s1, p2, j2, s2]
  · rfl

theorem generate_centers_length (M : JSMath α) (rng : ℕ → α) :
    (generateBougainvillea M rng).centersData.length = 2480 := by
  have h := generate_count M rng (fun p => p.centersData.length) clusterSpawn
    (fun _ _ => rfl) (spawn_centers M rng)
  simp only [] at h
  rw [h, sum_map_visitedAll]
  rfl

/-- C4: for every random source, after `generateBougainvillea` the array `bractsData` has
exactly three times as many entries as `centersData`, and for every cluster index `k`
(an index into `centersData`) and every `j` among 0, 1, 2 the bract entry `3 * k + j`
exists and carries the same position, the same jitter and the same speed as the centre
entry `k`. -/
theorem cluster_shares (M : JSMath α) (rng : ℕ → α) (k j : ℕ)
    (hk : k < (generateBougainvillea M rng).centersData.length) (hj : j < 3) :
    (generateBougainvillea M rng).bractsData.length =
      3 * (generateBougainvillea M rng).centersData.length ∧
    ∃ (b : BractData α) (c : CenterData α),
      (generateBougainvillea M rng).bractsData[3 * k + j]? = some b ∧
      (generateBougainvillea M rng).centersData[k]? = some c ∧
      b.pos = c.pos ∧ b.jitter = c.jitter ∧ b.speed = c.speed := by
  have hinv := generate_clusters M rng
  have hlen : (generateBougainvillea M rng).bractsData.length =
      3 * (generateBougainvillea M rng).centersData.length := by
    have h := congrArg List.length hinv
    rwa [List.length_map, tripled_length, List.length_map] at h
  refine ⟨hlen, ?_⟩
  have hkj : 3 * k + j < (generateBougainvillea M rng).bractsData.length := by omega
  refine ⟨(generateBougainvillea M rng).bractsData[3 * k + j],
    (generateBougainvillea M rng).centersData[k], List.getElem?_eq_getElem hkj,
    List.getElem?_eq_getElem hk, ?_⟩
  have h := congrArg (fun l => l[3 * k + j]?) hinv
  simp only [tripled_getElem? _ k j hj, List.getElem?_map, List.getElem?_eq_getElem hkj,
    List.getElem?_eq_getElem hk, Option.map_some', Option.some.injEq] at h
  simp only [BractData.shared, CenterData.shared, Prod.mk.injEq] at h
  exact h

/-- Witness for `cluster_shares`: the first cluster of the plant grown over the real
numbers from the random source that always returns one half. -/
theorem cluster_shares_witness :
    (0 < (generateBougainvillea realMath (fun _ => (1 / 2 : ℝ))).centersData.length ∧
      0 < 3) ∧
    ((generateBougainvillea realMath (fun _ => (1 / 2 : ℝ))).bractsData.length =
      3 * (generateBougainvillea realMath (fun _ => (1 / 2 : ℝ))).centersData.length ∧
    ∃ (b : BractData ℝ) (c : CenterData ℝ),
      (generateBougainvillea realMath (fun _ => (1 / 2 : ℝ))).bractsData[3 * 0 + 0]? =
        some b ∧
      (generateBougainvillea realMath (fun _ => (1 / 2 : ℝ))).centersData[0]? = some c ∧
      b.pos = c.pos ∧ b.jitter = c.jitter ∧ b.speed = c.speed) :=
  have h0 : 0 < (generateBougainvillea realMath (fun _ => (1 / 2 : ℝ))).centersData.length := by
    rw [generate_centers_length]; norm_num
  ⟨⟨h0, by norm_num⟩, cluster_shares realMath (fun _ => (1 / 2 : ℝ)) 0 0 h0 (by norm_num)⟩

end ClusterLemmas

end DappledLight

namespace DappledLight

section RangeLemmas

variable {α : Type} [LinearOrderedField α]

theorem scaled_range (r a b : α) (h0 : 0 ≤ r) (h1 : r < 1) (hb : 0 ≤ b) :
    a ≤ a + r * b ∧ a + r * b ≤ a + b := by
  constructor
  · have := mul_nonneg h0 hb
    linarith
  · have : r * b ≤ 1 * b := mul_le_mul_of_nonneg_right h1.le hb
    linarith

theorem pushLeaf_inRanges (M : JSMath α) (rng : ℕ → α)
    (hrng : ∀ n, 0 ≤ rng n ∧ rng n < 1) (e : Vector3 α) (t : Plant α) (h : InRanges t) :
    InRanges (pushLeaf M rng e t) := by
  obtain ⟨hl, hb, hc⟩ := h
  obtain ⟨l, hleaf, hscale, hspeed⟩ := pushLeaf_leavesData M rng e t
  obtain ⟨-, hbr, hce⟩ := pushLeaf_others M rng e t
  refine ⟨?_, by rw [hbr]; exact hb, by rw [hce]; exact hc⟩
  intro x hx
  rw [hleaf, List.mem_append, List.mem_singleton] at hx
  rcases hx with hx | rfl
  · exact hl x hx
  · have h6 := scaled_range (rng (t.draws + 6)) 0.6 0.3 (hrng _).1 (hrng _).2 (by norm_num)
    have h8 := scaled_range (rng (t.draws + 8)) 0.4 0.2 (hrng _).1 (hrng _).2 (by norm_num)
    rw [hscale, hspeed]
    refine ⟨⟨?_, ?_⟩, ⟨?_, ?_⟩⟩
    · linarith [h6.1]
    · have := h6.2; norm_num at this ⊢; linarith
    · exact h8.1
    · have := h8.2; norm_num at this ⊢; linarith

theorem pushCluster_inRanges (M : JSMath α) (rng : ℕ → α)
    (hrng : ∀ n, 0 ≤ rng n ∧ rng n < 1) (e : Vector3 α) (t : Plant α) (h : InRanges t) :
    InRanges (pushCluster M rng e t) := by
  obtain ⟨hl, hb, hc⟩ := h
  obtain ⟨b0, b1, b2, c, hbr, hce, ⟨-, -, s0⟩, ⟨-, -, s1⟩, ⟨-, -, s2⟩, k0, k1, k2, hsp, hsc⟩ :=
    pushCluster_data M rng e t
  obtain ⟨-, hle⟩ := pushCluster_others M rng e t
  have hspeed : (1.3 : α) ≤ c.speed ∧ c.speed ≤ 1.8 := by
    have h7 := scaled_range (rng (t.draws + 7)) 1.3 0.5 (hrng _).1 (hrng _).2 (by norm_num)
    rw [hsp]
    refine ⟨h7.1, ?_⟩
    have := h7.2; norm_num at this ⊢; linarith
  have hscale : ∀ n, (0.6 : α) ≤ 0.6 + rng n * 0.2 ∧ 0.6 + rng n * 0.2 ≤ 0.8 := by
    intro n
    have h := scaled_range (rng n) 0.6 0.2 (hrng _).1 (hrng _).2 (by norm_num)
    refine ⟨h.1, ?_⟩
    have := h.2; norm_num at this ⊢; linarith
  refine ⟨by rw [hle]; exact hl, ?_, ?_⟩
  · intro x hx
    rw [hbr, List.mem_append] at hx
    rcases hx with hx | hx
    · exact hb x hx
    · simp only [List.mem_cons, List.mem_singleton, List.not_mem_nil, or_false] at hx
      rcases hx with rfl | rfl | rfl
      · rw [k0, s0]; exact ⟨hscale _, hspeed⟩
      · rw [k1, s1]; exact ⟨hscale _, hspeed⟩
      · rw [k2, s2]; exact ⟨hscale _, hspeed⟩
  · intro x hx
    rw [hce, List.mem_append, List.mem_singleton] at hx
    rcases hx with hx | rfl
    · exact hc x hx
    · exact hsc

/-- C10: for every random source whose values lie in [0, 1), every descriptor produced by
`generateBougainvillea` is within the stated ranges: every leaf has scale in [0.6, 0.9]
and speed in [0.4, 0.6], every bract has scale in [0.6, 0.8] and speed in [1.3, 1.8], and
every flower centre has scale exactly 0.5. -/
theorem descriptors_in_ranges (M : JSMath α) (rng : ℕ → α)
    (hrng : ∀ n, 0 ≤ rng n ∧ rng n < 1) :
    (∀ l ∈ (generateBougainvillea M rng).leavesData,
      (0.6 ≤ l.scale ∧ l.scale ≤ 0.9) ∧ (0.4 ≤ l.speed ∧ l.speed ≤ 0.6)) ∧
    (∀ b ∈ (generateBougainvillea M rng).bractsData,
      (0.6 ≤ b.scale ∧ b.scale ≤ 0.8) ∧ (1.3 ≤ b.speed ∧ b.speed ≤ 1.8)) ∧
    (∀ c ∈ (generateBougainvillea M rng).centersData, c.scale = 0.5) := by
  apply generate_invariant M rng InRanges
  · intro t n h; exact h
  · intro d pos dir t ht
    exact spawn_invariant M rng InRanges (fun _ _ _ _ h => h)
      (pushLeaf_inRanges M rng hrng) (pushCluster_inRanges M rng hrng) d pos dir t ht
  · refine ⟨?_, ?_, ?_⟩ <;> intro x hx <;> simp [Plant.empty] at hx

/-- Witness for `descriptors_in_ranges`: the plant grown over the real numbers from the
random source that always returns one half. -/
theorem descriptors_in_ranges_witness :
    (∀ n : ℕ, (0 : ℝ) ≤ (fun _ => (1 / 2 : ℝ)) n ∧ (fun _ => (1 / 2 : ℝ)) n < 1) ∧
    ((∀ l ∈ (generateBougainvillea realMath (fun _ => (1 / 2 : ℝ))).leavesData,
      (0.6 ≤ l.scale ∧ l.scale ≤ 0.9) ∧ (0.4 ≤ l.speed ∧ l.speed ≤ 0.6)) ∧
    (∀ b ∈ (generateBougainvillea realMath (fun _ => (1 / 2 : ℝ))).bractsData,
      (0.6 ≤ b.scale ∧ b.scale ≤ 0.8) ∧ (1.3 ≤ b.speed ∧ b.speed ≤ 1.8)) ∧
    (∀ c ∈ (generateBougainvillea realMath (fun _ => (1 / 2 : ℝ))).centersData,
      c.scale = 0.5)) :=
  have h : ∀ n : ℕ, (0 : ℝ) ≤ (fun _ => (1 / 2 : ℝ)) n ∧ (fun _ => (1 / 2 : ℝ)) n < 1 :=
    fun _ => ⟨by norm_num, by norm_num⟩
  ⟨h, descriptors_in_ranges realMath (fun _ => (1 / 2 : ℝ)) h⟩

end RangeLemmas

end DappledLight

namespace DappledLight

/-! ## Loops that fill an instance-matrix array -/

theorem forLoop_setAt_aux {σ δ β : Type} (get : σ → List β) (L : List δ) (f : δ → β)
    (body : ℕ → σ → σ)
    (hbody : ∀ i s, get (body i s) =
      match L[i]? with
      | some d => (get s).set i (f d)
      | none => get s)
    (s : σ) :
    ∀ n, n ≤ L.length →
      (get (forLoop n body s)).length = (get s).length ∧
      ∀ j, (get (forLoop n body s))[j]? =
        if j < n then (if j < (get s).length then (L[j]?).map f else none)
        else (get s)[j]? := by
  intro n
  induction n with
  | zero => intro _; exact ⟨rfl, fun j => by simp [forLoop]⟩
  | succ n ih =>
    intro hn
    obtain ⟨hlen, hget⟩ := ih (by omega)
    have hLn : L[n]? = some L[n] := List.getElem?_eq_getElem (by omega)
    have hstep : get (forLoop (n + 1) body s) = (get (forLoop n body s)).set n (f L[n]) := by
      rw [forLoop, hbody, hLn]
    refine ⟨by rw [hstep, List.length_set, hlen], fun j => ?_⟩
    rw [hstep, List.getElem?_set, hlen]
    by_cases hj : n = j
    · subst hj
      simp [hLn]
    · rw [if_neg hj, hget]
      by_cases hlt : j < n
      · have hlt2 : j < n + 1 := by omega
        simp [hlt, hlt2]
      · have hlt2 : ¬ j < n + 1 := by omega
        simp [hlt, hlt2]

theorem forLoop_setAt {σ δ β : Type} (get : σ → List β) (L : List δ) (f : δ → β)
    (body : ℕ → σ → σ)
    (hbody : ∀ i s, get (body i s) =
      match L[i]? with
      | some d => (get s).set i (f d)
      | none => get s)
    (s : σ) (hlen : (get s).length = L.length) :
    get (forLoop L.length body s) = L.map f := by
  obtain ⟨_, hget⟩ := forLoop_setAt_aux get L f body hbody s L.length le_rfl
  apply List.ext_getElem?
  intro j
  rw [hget, List.getElem?_map, hlen]
  by_cases hj : j < L.length
  · simp [hj]
  · have hnone : L[j]? = none := List.getElem?_eq_none (by omega)
    have hnone2 : (get s)[j]? = none := List.getElem?_eq_none (by omega)
    simp [hj, hnone, hnone2]

end DappledLight

namespace DappledLight

section AnimateLemmas

variable {α : Type} [LinearOrderedField α]

/-! ## The poses computed by `animate` -/

theorem leafPose_matrix (M : JSMath α) (t w : α) (data : LeafData α) (dummy : Object3D α) :
    (leafPose M t w data dummy).matrix =
      Matrix4.compose data.position (Quaternion.setFromEuler M (leafRotation M t w data))
        ⟨data.scale, data.scale, data.scale⟩ :=
  rfl

theorem bractPose_quaternion (M : JSMath α) (t w : α) (data : BractData α)
    (dummy : Object3D α) :
    (bractPose M t w data dummy).quaternion =
      ((Quaternion.setFromEuler M data.rot).multiply
        (Quaternion.setFromAxisAngle M ⟨1, 0, 0⟩
          (M.sin (t * data.speed * 2.2 + data.jitter) * 0.15 * w))).multiply
        (Quaternion.setFromAxisAngle M ⟨0, 1, 0⟩
          (M.cos (t * data.speed * 2.8 + data.jitter) * 0.2 * w)) :=
  rfl

theorem bractPose_matrix (M : JSMath α) (t w : α) (data : BractData α)
    (dummy : Object3D α) :
    (bractPose M t w data dummy).matrix =
      Matrix4.compose data.pos (bractPose M t w data Object3D.new).quaternion
        ⟨data.scale, data.scale, data.scale⟩ :=
  rfl

theorem setFromAxisAngle_zero (M : JSMath α) (hsin : M.sin 0 = 0) (hcos : M.cos 0 = 1)
    (axis : Vector3 α) : Quaternion.setFromAxisAngle M axis 0 = ⟨0, 0, 0, 1⟩ := by
  simp [Quaternion.setFromAxisAngle, hsin, hcos]

theorem multiply_identity (q : Quaternion α) : q.multiply ⟨0, 0, 0, 1⟩ = q := by
  cases q
  simp [Quaternion.multiply]

theorem bractPose_zero_wind (M : JSMath α) (hsin : M.sin 0 = 0) (hcos : M.cos 0 = 1) (t : α)
    (data : BractData α) (dummy : Object3D α) :
    (bractPose M t 0 data dummy).quaternion = Quaternion.setFromEuler M data.rot := by
  rw [bractPose_quaternion]
  simp only [mul_zero]
  rw [setFromAxisAngle_zero M hsin hcos, setFromAxisAngle_zero M hsin hcos,
    multiply_identity, multiply_identity]

theorem leafRotation_zero_wind (M : JSMath α) (t : α) (data : LeafData α) :
    leafRotation M t 0 data = data.rotation := by
  cases data with
  | mk position rotation scale jitter speed =>
    cases rotation
    simp [leafRotation]

/-! ## The instance matrices written by `animate` -/

theorem animate_iLeaves (M : JSMath α) (plant : Plant α) (t w : α) (st : RenderState α)
    (hl : st.iLeaves.length = plant.leavesData.length) :
    (animate M plant t w st).iLeaves =
      plant.leavesData.map (fun data => (leafPose M t w data Object3D.new).matrix) := by
  unfold animate
  simp only
  have h3 := forLoop_invariant (fun s : RenderState α => s.iLeaves =
      plant.leavesData.map (fun data => (leafPose M t w data Object3D.new).matrix))
    (animateCenter M plant.centersData)
    (fun i s hs => by unfold animateCenter; split <;> exact hs)
  have h2 := forLoop_invariant (fun s : RenderState α => s.iLeaves =
      plant.leavesData.map (fun data => (leafPose M t w data Object3D.new).matrix))
    (animateBract M t w plant.bractsData)
    (fun i s hs => by unfold animateBract; split <;> exact hs)
  apply h3
  apply h2
  exact forLoop_setAt (fun s : RenderState α => s.iLeaves) plant.leavesData
    (fun data => (leafPose M t w data Object3D.new).matrix) _
    (fun i s => by unfold animateLeaf; cases plant.leavesData[i]? <;> rfl) _ hl

theorem animate_iBracts (M : JSMath α) (plant : Plant α) (t w : α) (st : RenderState α)
    (hb : st.iBracts.length = plant.bractsData.length) :
    (animate M plant t w st).iBracts =
      plant.bractsData.map (fun data => (bractPose M t w data Object3D.new).matrix) := by
  unfold animate
  simp only
  have h3 := forLoop_invariant (fun s : RenderState α => s.iBracts =
      plant.bractsData.map (fun data => (bractPose M t w data Object3D.new).matrix))
    (animateCenter M plant.centersData)
    (fun i s hs => by unfold animateCenter; split <;> exact hs)
  apply h3
  have h1 := forLoop_invariant (fun s : RenderState α => s.iBracts.length =
      plant.bractsData.length)
    (animateLeaf M t w plant.leavesData)
    (fun i s hs => by unfold animateLeaf; split <;> exact hs)
  exact forLoop_setAt (fun s : RenderState α => s.iBracts) plant.bractsData
    (fun data => (bractPose M t w data Object3D.new).matrix) _
    (fun i s => by unfold animateBract; cases plant.bractsData[i]? <;> rfl) _ (h1 _ _ hb)

end AnimateLemmas

end DappledLight

namespace DappledLight

section AnimateClaims

variable {α : Type} [LinearOrderedField α]

/-- C7: over the real numbers, for every time `t`, with wind strength 0 the animation step
gives every leaf and every bract the transform built from its stored position, base
rotation and scale alone. Each leaf keeps its base Euler angles; rotating an object about
its local X or Y axis by the angle 0 leaves its orientation unchanged, so each bract keeps
the orientation set from its stored `rot`; and the instance matrices that `animate`
writes for the leaves and the bracts are the matrices composed from the stored position,
the quaternion of the stored rotation and the stored scale. -/
theorem zero_wind_rest_pose (t : ℝ) (plant : Plant ℝ) (st : RenderState ℝ)
    (hl : st.iLeaves.length = plant.leavesData.length)
    (hb : st.iBracts.length = plant.bractsData.length) :
    (∀ (data : LeafData ℝ) (dummy : Object3D ℝ),
      (leafPose realMath t 0 data dummy).rotation = data.rotation ∧
      (leafPose realMath t 0 data dummy).matrix =
        Matrix4.compose data.position (Quaternion.setFromEuler realMath data.rotation)
          ⟨data.scale, data.scale, data.scale⟩) ∧
    (∀ o : Object3D ℝ,
      (Object3D.rotateX realMath o 0).quaternion = o.quaternion ∧
      (Object3D.rotateY realMath o 0).quaternion = o.quaternion) ∧
    (∀ (data : BractData ℝ) (dummy : Object3D ℝ),
      (bractPose realMath t 0 data dummy).quaternion =
        Quaternion.setFromEuler realMath data.rot ∧
      (bractPose realMath t 0 data dummy).matrix =
        Matrix4.compose data.pos (Quaternion.setFromEuler realMath data.rot)
          ⟨data.scale, data.scale, data.scale⟩) ∧
    (animate realMath plant t 0 st).iLeaves =
      plant.leavesData.map (fun data =>
        Matrix4.compose data.position (Quaternion.setFromEuler realMath data.rotation)
          ⟨data.scale, data.scale, data.scale⟩) ∧
    (animate realMath plant t 0 st).iBracts =
      plant.bractsData.map (fun data =>
        Matrix4.compose data.pos (Quaternion.setFromEuler realMath data.rot)
          ⟨data.scale, data.scale, data.scale⟩) := by
  have hsin : realMath.sin 0 = 0 := Real.sin_zero
  have hcos : realMath.cos 0 = 1 := Real.cos_zero
  have hleaf : ∀ (data : LeafData ℝ) (dummy : Object3D ℝ),
      (leafPose realMath t 0 data dummy).matrix =
        Matrix4.compose data.position (Quaternion.setFromEuler realMath data.rotation)
          ⟨data.scale, data.scale, data.scale⟩ := by
    intro data dummy
    rw [leafPose_matrix, leafRotation_zero_wind]
  have hbract : ∀ (data : BractData ℝ) (dummy : Object3D ℝ),
      (bractPose realMath t 0 data dummy).matrix =
        Matrix4.compose data.pos (Quaternion.setFromEuler realMath data.rot)
          ⟨data.scale, data.scale, data.scale⟩ := by
    intro data dummy
    rw [bractPose_matrix, bractPose_zero_wind realMath hsin hcos]
  refine ⟨fun data dummy => ⟨leafRotation_zero_wind realMath t data, hleaf data dummy⟩,
    fun o => ⟨?_, ?_⟩,
    fun data dummy => ⟨bractPose_zero_wind realMath hsin hcos t data dummy, hbract data dummy⟩,
    ?_, ?_⟩
  · show o.quaternion.multiply (Quaternion.setFromAxisAngle realMath ⟨1, 0, 0⟩ 0) = _
    rw [setFromAxisAngle_zero realMath hsin hcos, multiply_identity]
  · show o.quaternion.multiply (Quaternion.setFromAxisAngle realMath ⟨0, 1, 0⟩ 0) = _
    rw [setFromAxisAngle_zero realMath hsin hcos, multiply_identity]
  · rw [animate_iLeaves realMath plant t 0 st hl]
    exact List.map_congr_left (fun data _ => hleaf data _)
  · rw [animate_iBracts realMath plant t 0 st hb]
    exact List.map_congr_left (fun data _ => hbract data _)

/-- Witness for `zero_wind_rest_pose`: the plant grown from the random source that always
returns one half, in the render state the set-up creates for it, at time 1. -/
theorem zero_wind_rest_pose_witness :
    ((initialRender (generateBougainvillea realMath (fun _ => (1 / 2 : ℝ)))).iLeaves.length =
        (generateBougainvillea realMath (fun _ => (1 / 2 : ℝ))).leavesData.length ∧
      (initialRender (generateBougainvillea realMath (fun _ => (1 / 2 : ℝ)))).iBracts.length =
        (generateBougainvillea realMath (fun _ => (1 / 2 : ℝ))).bractsData.length) ∧
    (animate realMath (generateBougainvillea realMath (fun _ => (1 / 2 : ℝ))) 1 0
        (initialRender (generateBougainvillea realMath (fun _ => (1 / 2 : ℝ))))).iBracts =
      (generateBougainvillea realMath (fun _ => (1 / 2 : ℝ))).bractsData.map (fun data =>
        Matrix4.compose data.pos (Quaternion.setFromEuler realMath data.rot)
          ⟨data.scale, data.scale, data.scale⟩) :=
  have hl : (initialRender (generateBougainvillea realMath (fun _ => (1 / 2 : ℝ)))).iLeaves.length =
      (generateBougainvillea realMath (fun _ => (1 / 2 : ℝ))).leavesData.length := by
    simp [initialRender, instancedMesh]
  have hb : (initialRender (generateBougainvillea realMath (fun _ => (1 / 2 : ℝ)))).iBracts.length =
      (generateBougainvillea realMath (fun _ => (1 / 2 : ℝ))).bractsData.length := by
    simp [initialRender, instancedMesh]
  ⟨⟨hl, hb⟩, (zero_wind_rest_pose 1 _ _ hl hb).2.2.2.2⟩

/-- C8: for every time `t`, wind strength `w` and leaf descriptor, the animation step sets
the rotation of the leaf to `(base.x + sin(t*speed + jitter)*0.04*w,
base.y + cos(t*speed*0.8 + jitter)*0.06*w, base.z + sin(t*speed*1.2 + jitter)*0.03*w)`,
uses the position and the scale of the descriptor unchanged, and the matrix `animate`
stores for the leaf is the one composed from these. At `t = 0` and `w = 0.5` the offset of
the rotation from the base rotation is
`(sin(jitter)*0.04*0.5, cos(jitter)*0.06*0.5, sin(jitter)*0.03*0.5)`. -/
theorem leaf_pose_formula (M : JSMath α) (t w : α) (plant : Plant α) (st : RenderState α)
    (hl : st.iLeaves.length = plant.leavesData.length) :
    (∀ (data : LeafData α) (dummy : Object3D α),
      (leafPose M t w data dummy).rotation =
        ⟨data.rotation.x + M.sin (t * data.speed + data.jitter) * 0.04 * w,
         data.rotation.y + M.cos (t * data.speed * 0.8 + data.jitter) * 0.06 * w,
         data.rotation.z + M.sin (t * data.speed * 1.2 + data.jitter) * 0.03 * w⟩ ∧
      (leafPose M t w data dummy).position = data.position ∧
      (leafPose M t w data dummy).scale = ⟨data.scale, data.scale, data.scale⟩) ∧
    (animate M plant t w st).iLeaves =
      plant.leavesData.map (fun data =>
        Matrix4.compose data.position
          (Quaternion.setFromEuler M
            ⟨data.rotation.x + M.sin (t * data.speed + data.jitter) * 0.04 * w,
             data.rotation.y + M.cos (t * data.speed * 0.8 + data.jitter) * 0.06 * w,
             data.rotation.z + M.sin (t * data.speed * 1.2 + data.jitter) * 0.03 * w⟩)
          ⟨data.scale, data.scale, data.scale⟩) ∧
    (∀ (data : LeafData α) (dummy : Object3D α),
      (leafPose M 0 0.5 data dummy).rotation.x - data.rotation.x =
        M.sin data.jitter * 0.04 * 0.5 ∧
      (leafPose M 0 0.5 data dummy).rotation.y - data.rotation.y =
        M.cos data.jitter * 0.06 * 0.5 ∧
      (leafPose M 0 0.5 data dummy).rotation.z - data.rotation.z =
        M.sin data.jitter * 0.03 * 0.5) := by
  refine ⟨fun data dummy => ⟨rfl, rfl, rfl⟩, ?_, fun data dummy => ?_⟩
  · rw [animate_iLeaves M plant t w st hl]
    rfl
  · show (leafRotation M 0 0.5 data).x - _ = _ ∧ (leafRotation M 0 0.5 data).y - _ = _ ∧
      (leafRotation M 0 0.5 data).z - _ = _
    simp [leafRotation]

/-- Witness for `leaf_pose_formula`: the plant grown over the real numbers from the random
source that always returns one half, in the render state the set-up creates for it, at
time 2 with wind strength 1.5. -/
theorem leaf_pose_formula_witness :
    (initialRender (generateBougainvillea realMath (fun _ => (1 / 2 : ℝ)))).iLeaves.length =
      (generateBougainvillea realMath (fun _ => (1 / 2 : ℝ))).leavesData.length ∧
    (animate realMath (generateBougainvillea realMath (fun _ => (1 / 2 : ℝ))) 2 1.5
        (initialRender (generateBougainvillea realMath (fun _ => (1 / 2 : ℝ))))).iLeaves =
      (generateBougainvillea realMath (fun _ => (1 / 2 : ℝ))).leavesData.map (fun data =>
        Matrix4.compose data.position
          (Quaternion.setFromEuler realMath
            ⟨data.rotation.x + realMath.sin (2 * data.speed + data.jitter) * 0.04 * 1.5,
             data.rotation.y + realMath.cos (2 * data.speed * 0.8 + data.jitter) * 0.06 * 1.5,
             data.rotation.z + realMath.sin (2 * data.speed * 1.2 + data.jitter) * 0.03 * 1.5⟩)
          ⟨data.scale, data.scale, data.scale⟩) :=
  have hl : (initialRender (generateBougainvillea realMath (fun _ => (1 / 2 : ℝ)))).iLeaves.length =
      (generateBougainvillea realMath (fun _ => (1 / 2 : ℝ))).leavesData.length := by
    simp [initialRender, instancedMesh]
  ⟨hl, (leaf_pose_formula realMath 2 1.5 _ _ hl).2.1⟩

end AnimateClaims

end DappledLight

namespace DappledLight

/-! ## Lighting -/

section EffectClaims

variable {α : Type} [LinearOrderedField α]

/-- C9: setting the day/night mode, in either direction and from any state, changes only
the mode itself, the background colour of the scene, the colour and the intensity of the
directional light and the intensity of the ambient light. The position and the
orientation of the directional light, the colour of the ambient light, the wind strength,
the sun angle, the branch segments and the three descriptor arrays (all part of `plant`)
and the instance matrices are the same before and after. When the scene and both
lights exist, switching to night installs the night configuration and switching to day
the day configuration. -/
theorem toggle_changes_lighting_only (v : Bool) (s : App α) :
    ((setIsNight v s).sunLightRef.map (fun l => l.position) =
        s.sunLightRef.map (fun l => l.position) ∧
      (setIsNight v s).sunLightRef.map (fun l => l.quaternion) =
        s.sunLightRef.map (fun l => l.quaternion) ∧
      (setIsNight v s).ambientLightRef.map (fun l => l.color) =
        s.ambientLightRef.map (fun l => l.color)) ∧
    ((setIsNight v s).wind = s.wind ∧ (setIsNight v s).windRef = s.windRef ∧
      (setIsNight v s).sunAngle = s.sunAngle ∧
      (setIsNight v s).sunAngleRef = s.sunAngleRef ∧
      (setIsNight v s).showUI = s.showUI) ∧
    ((setIsNight v s).plant = s.plant ∧
      (setIsNight v s).plant.branches = s.plant.branches ∧
      (setIsNight v s).plant.leavesData = s.plant.leavesData ∧
      (setIsNight v s).plant.bractsData = s.plant.bractsData ∧
      (setIsNight v s).plant.centersData = s.plant.centersData ∧
      (setIsNight v s).render = s.render) ∧
    (setIsNight v s).isNight = v ∧
    ((setIsNight v s).sceneRef.isSome = s.sceneRef.isSome ∧
      (setIsNight v s).sunLightRef.isSome = s.sunLightRef.isSome ∧
      (setIsNight v s).ambientLightRef.isSome = s.ambientLightRef.isSome) ∧
    (∀ (scene : Scene) (sunLight : DirectionalLight α) (ambient : AmbientLight α),
      setIsNight true
          { s with isNight := false, sceneRef := some scene, sunLightRef := some sunLight,
                   ambientLightRef := some ambient } =
        { s with
          isNight := true
          sceneRef := some { scene with background := 0x0a0b1e }
          sunLightRef := some { sunLight with color := 0xaaccff, intensity := 1.2 }
          ambientLightRef := some { ambient with intensity := 0.2 } } ∧
      setIsNight false
          { s with isNight := true, sceneRef := some scene, sunLightRef := some sunLight,
                   ambientLightRef := some ambient } =
        { s with
          isNight := false
          sceneRef := some { scene with background := 0xfcfbf9 }
          sunLightRef := some { sunLight with color := 0xffffff, intensity := 2.2 }
          ambientLightRef := some { ambient with intensity := 0.65 } }) := by
  refine ⟨?_, ?_, ?_, ?_, ?_, fun scene sunLight ambient => ⟨rfl, rfl⟩⟩ <;>
  · unfold setIsNight
    by_cases h : s.isNight = v
    · simp [h]
    · simp only [h, ↓reduceIte]
      unfold isNightEffect
      rcases hs : s.sceneRef with _ | scene <;> rcases hl : s.sunLightRef with _ | sun <;>
        rcases ha : s.ambientLightRef with _ | amb <;> cases v <;> simp [hs, hl, ha]

end EffectClaims

end DappledLight

namespace DappledLight

section MountLemmas

variable {α : Type} [LinearOrderedField α]

/-! ## The directional light between mount and the first slider move -/

theorem setIsNight_light (v : Bool) (s : App α) :
    (setIsNight v s).sunLightRef.map (fun l => l.position) =
      s.sunLightRef.map (fun l => l.position) ∧
    (setIsNight v s).sunAngle = s.sunAngle := by
  unfold setIsNight
  by_cases h : s.isNight = v
  · simp [h]
  · simp only [h, ↓reduceIte]
    unfold isNightEffect
    rcases hs : s.sceneRef with _ | scene <;> rcases hl : s.sunLightRef with _ | sun <;>
      rcases ha : s.ambientLightRef with _ | amb <;> cases v <;> simp [hs, hl, ha]

theorem setWind_light (v : α) (s : App α) :
    (setWind v s).sunLightRef = s.sunLightRef ∧ (setWind v s).sunAngle = s.sunAngle := by
  unfold setWind windEffect
  by_cases h : s.wind = v <;> simp [h]

theorem step_light (M : JSMath α) (lookAt : Vector3 α → Vector3 α → Quaternion α)
    (s : App α) (e : Event α) (he : e.isSunAngle = false) :
    (step M lookAt s e).sunLightRef.map (fun l => l.position) =
      s.sunLightRef.map (fun l => l.position) ∧
    (step M lookAt s e).sunAngle = s.sunAngle := by
  cases e with
  | sunAngle a => simp [Event.isSunAngle] at he
  | night v => exact setIsNight_light v s
  | wind v => exact ⟨by rw [step, (setWind_light v s).1], (setWind_light v s).2⟩
  | tick t => exact ⟨rfl, rfl⟩

theorem run_light (M : JSMath α) (lookAt : Vector3 α → Vector3 α → Quaternion α)
    (events : List (Event α)) :
    ∀ s : App α,
      (run M lookAt s (events.filter (fun e => !e.isSunAngle))).sunLightRef.map
          (fun l => l.position) = s.sunLightRef.map (fun l => l.position) ∧
      (run M lookAt s (events.filter (fun e => !e.isSunAngle))).sunAngle = s.sunAngle := by
  induction events with
  | nil => intro s; exact ⟨rfl, rfl⟩
  | cons e events ih =>
    intro s
    by_cases he : e.isSunAngle = true
    · simpa [List.filter_cons, he] using ih s
    · have he2 : e.isSunAngle = false := by simpa using he
      obtain ⟨h1, h2⟩ := step_light M lookAt s e he2
      obtain ⟨h3, h4⟩ := ih (step M lookAt s e)
      simp only [List.filter_cons, he2, Bool.not_false, ↓reduceIte, run, List.foldl_cons]
      exact ⟨h3.trans h1, h4.trans h2⟩

/-! ## The light once the slider has moved -/

theorem setSunAngle_synced (M : JSMath α) (lookAt : Vector3 α → Vector3 α → Quaternion α)
    (a : α) (s : App α) (sunLight : DirectionalLight α) (hl : s.sunLightRef = some sunLight)
    (ha : s.sunAngle ≠ a) : Synced M (setSunAngle M lookAt a s) := by
  unfold Synced setSunAngle sunAngleEffect
  simp [ha, hl]

theorem step_synced (M : JSMath α) (lookAt : Vector3 α → Vector3 α → Quaternion α)
    (s : App α) (e : Event α) (hs : Synced M s) : Synced M (step M lookAt s e) := by
  cases e with
  | sunAngle a =>
    by_cases ha : s.sunAngle = a
    · simpa [step, setSunAngle, ha] using hs
    · unfold Synced at hs
      rcases hl : s.sunLightRef with _ | sunLight
      · simp [hl] at hs
      · exact setSunAngle_synced M lookAt a s sunLight hl ha
  | night v =>
    unfold Synced at hs ⊢
    rw [step, (setIsNight_light v s).1, (setIsNight_light v s).2]
    exact hs
  | wind v =>
    unfold Synced at hs ⊢
    rw [step, (setWind_light v s).1, (setWind_light v s).2]
    exact hs
  | tick t => exact hs

theorem run_synced (M : JSMath α) (lookAt : Vector3 α → Vector3 α → Quaternion α)
    (events : List (Event α)) :
    ∀ s : App α, Synced M s → Synced M (run M lookAt s events) := by
  induction events with
  | nil => intro s hs; exact hs
  | cons e events ih => intro s hs; exact ih _ (step_synced M lookAt s e hs)

end MountLemmas

theorem sunPosition_noon : sunPosition realMath 0.5 = ⟨0, 40, 0⟩ := by
  have h : (0.5 : ℝ) * Real.pi = Real.pi / 2 := by ring
  simp only [sunPosition, realMath, h, Real.cos_pi_div_two, Real.sin_pi_div_two]
  norm_num

theorem sunPosition_east : sunPosition realMath 0 = ⟨20, 12, 0⟩ := by
  simp [sunPosition, realMath]

/-- C11 (the code departs from the claim at startup): in the state in which the first
frame is rendered the sun angle is 0.5, for which the formula gives `(0, 40, 0)`, but the
directional light created by the set-up sits at the three.js default `(0, 1, 0)`: the
sun-angle effect ran before the light existed. The same holds when the component is
mounted twice under `React.StrictMode`, and the light stays at `(0, 1, 0)`, with the sun
angle at 0.5, through every sequence of mode changes, wind changes and frames. The
slider path does what the claim says: after moving the slider to 0 the light is at
`(20, 12, 0)`, after moving it back to 0.5 it is at `(0, 40, 0)`, and from then on every
sequence of events keeps the light on the arc. -/
theorem startup_light_at_default (lookAt : Vector3 ℝ → Vector3 ℝ → Quaternion ℝ)
    (rng : ℕ → ℝ) (t0 t1 : ℝ) (events : List (Event ℝ)) :
    ((mount realMath lookAt rng t0).sunAngle = 0.5 ∧
      sunPosition realMath (mount realMath lookAt rng t0).sunAngle = ⟨0, 40, 0⟩ ∧
      (mount realMath lookAt rng t0).sunLightRef.map (fun l => l.position) =
        some ⟨0, 1, 0⟩ ∧
      ¬ Synced realMath (mount realMath lookAt rng t0)) ∧
    ((strictMount realMath lookAt rng t0 t1).sunAngle = 0.5 ∧
      (strictMount realMath lookAt rng t0 t1).sunLightRef.map (fun l => l.position) =
        some ⟨0, 1, 0⟩) ∧
    ((run realMath lookAt (mount realMath lookAt rng t0)
        (events.filter (fun e => !e.isSunAngle))).sunAngle = 0.5 ∧
      (run realMath lookAt (mount realMath lookAt rng t0)
        (events.filter (fun e => !e.isSunAngle))).sunLightRef.map (fun l => l.position) =
          some ⟨0, 1, 0⟩) ∧
    ((setSunAngle realMath lookAt 0 (mount realMath lookAt rng t0)).sunLightRef.map
        (fun l => l.position) = some ⟨20, 12, 0⟩ ∧
      (setSunAngle realMath lookAt 0.5
        (setSunAngle realMath lookAt 0 (mount realMath lookAt rng t0))).sunLightRef.map
          (fun l => l.position) = some ⟨0, 40, 0⟩ ∧
      Synced realMath (run realMath lookAt
        (setSunAngle realMath lookAt 0.5
          (setSunAngle realMath lookAt 0 (mount realMath lookAt rng t0))) events)) := by
  have hangle : (mount realMath lookAt rng t0).sunAngle = 0.5 := rfl
  have hpos : (mount realMath lookAt rng t0).sunLightRef.map (fun l => l.position) =
      some ⟨0, 1, 0⟩ := rfl
  have hne : (0.5 : ℝ) ≠ 0 := by norm_num
  have hlight : (mount realMath lookAt rng t0).sunLightRef =
      some (DirectionalLight.new 0xffffff 2.2) := rfl
  have h0 : Synced realMath (setSunAngle realMath lookAt 0 (mount realMath lookAt rng t0)) :=
    setSunAngle_synced realMath lookAt 0 _ _ hlight (by rw [hangle]; exact hne)
  have hangle0 : (setSunAngle realMath lookAt 0 (mount realMath lookAt rng t0)).sunAngle = 0 := by
    simp [setSunAngle, hangle, hne, sunAngleEffect, hlight]
  have h1 : Synced realMath (setSunAngle realMath lookAt 0.5
      (setSunAngle realMath lookAt 0 (mount realMath lookAt rng t0))) :=
    step_synced realMath lookAt _ (Event.sunAngle 0.5) h0
  have hangle1 : (setSunAngle realMath lookAt 0.5
      (setSunAngle realMath lookAt 0 (mount realMath lookAt rng t0))).sunAngle = 0.5 := by
    simp [setSunAngle, hangle, hne, hne.symm, sunAngleEffect, hlight]
  refine ⟨⟨hangle, ?_, hpos, ?_⟩, ⟨rfl, rfl⟩, ⟨?_, ?_⟩, ?_, ?_, ?_⟩
  · rw [hangle, sunPosition_noon]
  · unfold Synced
    rw [hpos, hangle, sunPosition_noon]
    intro h
    have h2 := congrArg (fun o => o.map (fun v : Vector3 ℝ => v.y)) h
    norm_num at h2
  · rw [(run_light realMath lookAt events _).2, hangle]
  · rw [(run_light realMath lookAt events _).1, hpos]
  · have h := h0
    unfold Synced at h
    rw [h, hangle0, sunPosition_east]
  · have h := h1
    unfold Synced at h
    rw [h, hangle1, sunPosition_noon]
  · exact run_synced realMath lookAt events _ h1

end DappledLight

namespace DappledLight

/-! ## Rounding to binary64 -/

theorem roundNearestEven_near (r : ℝ) (k : ℤ) (h : |r - k| < 1 / 2) :
    roundNearestEven r = k := by
  rw [abs_lt] at h
  obtain ⟨h1, h2⟩ := h
  unfold roundNearestEven
  by_cases hk : (k : ℝ) ≤ r
  · have hfloor : ⌊r⌋ = k := Int.floor_eq_iff.mpr ⟨hk, by linarith⟩
    have hfract : Int.fract r < 1 / 2 := by
      rw [← Int.self_sub_floor, hfloor]; linarith
    rw [if_pos hfract, hfloor]
  · have hk2 : r < k := lt_of_not_le hk
    have hfloor : ⌊r⌋ = k - 1 := Int.floor_eq_iff.mpr ⟨by push_cast; linarith, by push_cast; linarith⟩
    have hfract : 1 / 2 < Int.fract r := by
      rw [← Int.self_sub_floor, hfloor]; push_cast; linarith
    rw [if_neg (not_lt.mpr hfract.le), if_pos hfract, hfloor]
    ring

theorem roundNearestEven_error (r : ℝ) : |(roundNearestEven r : ℝ) - r| ≤ 1 / 2 := by
  have h0 := Int.fract_nonneg r
  have h1 := Int.fract_lt_one r
  have hf : r - ⌊r⌋ = Int.fract r := Int.self_sub_floor r
  unfold roundNearestEven
  rw [abs_le]
  split_ifs with ha hb hc
  · constructor <;> linarith
  · push_cast; constructor <;> linarith
  · have : Int.fract r = 1 / 2 := le_antisymm (not_lt.mp hb) (not_lt.mp ha)
    constructor <;> linarith
  · have : Int.fract r = 1 / 2 := le_antisymm (not_lt.mp hb) (not_lt.mp ha)
    push_cast; constructor <;> linarith

theorem ulp_of_binade (x : ℝ) (e : ℤ) (he : -1022 ≤ e) (h1 : (2 : ℝ) ^ e ≤ |x|)
    (h2 : |x| < (2 : ℝ) ^ (e + 1)) : ulp x = (2 : ℝ) ^ (e - 52) := by
  have hpos : 0 < |x| := lt_of_lt_of_le (zpow_pos (by norm_num) e) h1
  have hb : (1 : ℕ) < 2 := by norm_num
  have hlo : e ≤ Int.log 2 |x| := (Int.zpow_le_iff_le_log hb hpos).mp (by exact_mod_cast h1)
  have hhi : Int.log 2 |x| < e + 1 := (Int.lt_zpow_iff_log_lt hb hpos).mp (by exact_mod_cast h2)
  have hlog : Int.log 2 |x| = e := by omega
  unfold ulp
  rw [hlog, max_eq_left he]

theorem fl_near (x d : ℝ) (e k : ℤ) (he : -1022 ≤ e) (h1 : (2 : ℝ) ^ e ≤ |x|)
    (h2 : |x| < (2 : ℝ) ^ (e + 1)) (hd : d = k * (2 : ℝ) ^ (e - 52))
    (hx : |x - d| < (2 : ℝ) ^ (e - 53)) : fl x = d := by
  have hq : (0 : ℝ) < (2 : ℝ) ^ (e - 52) := zpow_pos (by norm_num) _
  have hhalf : (2 : ℝ) ^ (e - 53) = (2 : ℝ) ^ (e - 52) / 2 := by
    rw [show e - 53 = e - 52 - 1 by ring, zpow_sub_one₀ (by norm_num)]
    ring
  unfold fl
  rw [ulp_of_binade x e he h1 h2, hd]
  congr 2
  apply roundNearestEven_near
  have hdiv : x / (2 : ℝ) ^ (e - 52) - k = (x - d) / (2 : ℝ) ^ (e - 52) := by
    rw [hd]; field_simp; ring
  rw [hdiv, abs_div, abs_of_pos hq, div_lt_iff₀ hq]
  rw [hhalf] at hx
  linarith

theorem fl_exact (d : ℝ) (e k : ℤ) (he : -1022 ≤ e) (h1 : (2 : ℝ) ^ e ≤ |d|)
    (h2 : |d| < (2 : ℝ) ^ (e + 1)) (hd : d = k * (2 : ℝ) ^ (e - 52)) : fl d = d :=
  fl_near d d e k he h1 h2 hd (by rw [sub_self, abs_zero]; exact zpow_pos (by norm_num) _)

theorem fl_error (x : ℝ) (e : ℤ) (he : -1022 ≤ e) (h1 : (2 : ℝ) ^ e ≤ |x|)
    (h2 : |x| < (2 : ℝ) ^ (e + 1)) : |fl x - x| ≤ (2 : ℝ) ^ (e - 53) := by
  have hq : (0 : ℝ) < (2 : ℝ) ^ (e - 52) := zpow_pos (by norm_num) _
  have hhalf : (2 : ℝ) ^ (e - 53) = (2 : ℝ) ^ (e - 52) / 2 := by
    rw [show e - 53 = e - 52 - 1 by ring, zpow_sub_one₀ (by norm_num)]
    ring
  unfold fl
  rw [ulp_of_binade x e he h1 h2]
  have hr := roundNearestEven_error (x / (2 : ℝ) ^ (e - 52))
  have heq : (roundNearestEven (x / (2 : ℝ) ^ (e - 52)) : ℝ) * (2 : ℝ) ^ (e - 52) - x =
      ((roundNearestEven (x / (2 : ℝ) ^ (e - 52)) : ℝ) - x / (2 : ℝ) ^ (e - 52)) *
        (2 : ℝ) ^ (e - 52) := by
    field_simp
  rw [heq, abs_mul, abs_of_pos hq, hhalf]
  have := mul_le_mul_of_nonneg_right hr hq.le
  linarith

theorem fl_zero : fl 0 = 0 := by
  unfold fl
  rw [zero_div]
  have h : roundNearestEven 0 = 0 := by
    have := roundNearestEven_near 0 0 (by norm_num)
    simpa using this
  rw [h]
  simp

end DappledLight

namespace DappledLight

theorem fl_one : fl 1 = 1 := by
  apply fl_exact 1 0 (2 ^ 52) (by norm_num) <;> norm_num

theorem fl_twelve : fl 12 = 12 := by
  apply fl_exact 12 3 (12 * 2 ^ 49) (by norm_num) <;> norm_num

theorem fl_twenty : fl 20 = 20 := by
  apply fl_exact 20 4 (20 * 2 ^ 48) (by norm_num) <;> norm_num

theorem fl_neg_twenty : fl (-20) = -20 := by
  apply fl_exact (-20) 4 (-(20 * 2 ^ 48)) (by norm_num) <;> norm_num

theorem fl_twenty_eight : fl 28 = 28 := by
  apply fl_exact 28 4 (28 * 2 ^ 48) (by norm_num) <;> norm_num

theorem fl_forty : fl 40 = 40 := by
  apply fl_exact 40 5 (40 * 2 ^ 47) (by norm_num) <;> norm_num

theorem fl_PI : fl doubleMath.PI = doubleMath.PI := by
  have hpos : (0 : ℝ) < doubleMath.PI := by norm_num [doubleMath]
  refine fl_exact _ 1 7074237752028440 (by norm_num) ?_ ?_ ?_
  · rw [abs_of_pos hpos]; norm_num [doubleMath]
  · rw [abs_of_pos hpos]; norm_num [doubleMath]
  · norm_num [doubleMath]

theorem fl_half_PI : fl (0.5 * doubleMath.PI) = 0.5 * doubleMath.PI := by
  have hpos : (0 : ℝ) < 0.5 * doubleMath.PI := by norm_num [doubleMath]
  refine fl_exact _ 0 7074237752028440 (by norm_num) ?_ ?_ ?_
  · rw [abs_of_pos hpos]; norm_num [doubleMath]
  · rw [abs_of_pos hpos]; norm_num [doubleMath]
  · norm_num [doubleMath]

end DappledLight

namespace DappledLight

/-! ## The sine and cosine of `Math.PI` and of half of it -/

theorem pi_sub_PI_bounds :
    (12246 : ℝ) / 10 ^ 20 < Real.pi - doubleMath.PI ∧
    Real.pi - doubleMath.PI < 12248 / 10 ^ 20 := by
  have h1 := Real.pi_gt_d20
  have h2 := Real.pi_lt_d20
  have hPI : doubleMath.PI = 884279719003555 / 2 ^ 48 := rfl
  rw [hPI]
  constructor <;> norm_num at h1 h2 ⊢ <;> linarith

theorem sin_small_bounds (x : ℝ) (h0 : 0 < x) (h1 : x < 1 / 1000) :
    x - x / 10 ^ 6 < Real.sin x ∧ Real.sin x < x := by
  refine ⟨?_, Real.sin_lt h0⟩
  have h := Real.sin_gt_sub_cube h0 (by linarith)
  have hsq : x ^ 2 < 1 / 10 ^ 6 := by nlinarith
  have hcube : x ^ 3 / 4 ≤ x / 10 ^ 6 := by
    have : x ^ 3 = x * x ^ 2 := by ring
    rw [this]
    nlinarith
  linarith

theorem cos_small_bounds (x : ℝ) (h0 : 0 < x) (h1 : x < 1 / 10 ^ 15) :
    1 - 1 / 10 ^ 30 < Real.cos x ∧ Real.cos x < 1 := by
  constructor
  · have h := Real.one_sub_sq_div_two_le_cos (x := x)
    have hsq : x ^ 2 < 1 / 10 ^ 30 := by nlinarith
    linarith
  · have hpi : x ≤ Real.pi := by
      have := Real.pi_gt_three
      linarith
    have h := Real.cos_lt_cos_of_nonneg_of_le_pi (le_refl (0 : ℝ)) hpi h0
    rwa [Real.cos_zero] at h

theorem sin_PI_bounds :
    (12245 : ℝ) / 10 ^ 20 < Real.sin doubleMath.PI ∧
    Real.sin doubleMath.PI < 12248 / 10 ^ 20 := by
  obtain ⟨h1, h2⟩ := pi_sub_PI_bounds
  have hs := sin_small_bounds (Real.pi - doubleMath.PI) (by linarith) (by norm_num at h2 ⊢; linarith)
  rw [Real.sin_pi_sub] at hs
  constructor
  · have := hs.1; norm_num at h1 h2 this ⊢; linarith
  · linarith [hs.2]

theorem cos_PI_bounds :
    -1 < Real.cos doubleMath.PI ∧ Real.cos doubleMath.PI < -1 + 1 / 10 ^ 30 := by
  obtain ⟨h1, h2⟩ := pi_sub_PI_bounds
  have hc := cos_small_bounds (Real.pi - doubleMath.PI) (by linarith) (by norm_num at h2 ⊢; linarith)
  rw [Real.cos_pi_sub] at hc
  constructor <;> linarith [hc.1, hc.2]

theorem sin_half_PI_bounds :
    1 - 1 / 10 ^ 30 < Real.sin (0.5 * doubleMath.PI) ∧
    Real.sin (0.5 * doubleMath.PI) < 1 := by
  obtain ⟨h1, h2⟩ := pi_sub_PI_bounds
  have hc := cos_small_bounds (Real.pi / 2 - 0.5 * doubleMath.PI) (by linarith)
    (by norm_num at h2 ⊢; linarith)
  rwa [Real.cos_pi_div_two_sub] at hc

theorem cos_half_PI_bounds :
    (6122 : ℝ) / 10 ^ 20 < Real.cos (0.5 * doubleMath.PI) ∧
    Real.cos (0.5 * doubleMath.PI) < 6124 / 10 ^ 20 := by
  obtain ⟨h1, h2⟩ := pi_sub_PI_bounds
  have hs := sin_small_bounds (Real.pi / 2 - 0.5 * doubleMath.PI) (by linarith)
    (by norm_num at h2 ⊢; linarith)
  rw [Real.sin_pi_div_two_sub] at hs
  constructor
  · have := hs.1; norm_num at h1 h2 this ⊢; linarith
  · have := hs.2; norm_num at h1 h2 this ⊢; linarith

end DappledLight

namespace DappledLight

/-! ## The light position in binary64 at the three angles -/

theorem cos_double_PI : doubleMath.cos doubleMath.PI = -1 := by
  obtain ⟨h1, h2⟩ := cos_PI_bounds
  have habs : |Real.cos doubleMath.PI| = -Real.cos doubleMath.PI :=
    abs_of_neg (by linarith)
  show fl (Real.cos doubleMath.PI) = -1
  refine fl_near _ _ (-1) (-(2 ^ 53)) (by norm_num) ?_ ?_ ?_ ?_
  · rw [habs]; norm_num; linarith
  · rw [habs]; norm_num; linarith
  · norm_num
  · rw [abs_lt]; norm_num; constructor <;> linarith

theorem sin_double_half_PI : doubleMath.sin (0.5 * doubleMath.PI) = 1 := by
  obtain ⟨h1, h2⟩ := sin_half_PI_bounds
  have habs : |Real.sin (0.5 * doubleMath.PI)| = Real.sin (0.5 * doubleMath.PI) :=
    abs_of_pos (by linarith)
  show fl (Real.sin (0.5 * doubleMath.PI)) = 1
  refine fl_near _ _ (-1) (2 ^ 53) (by norm_num) ?_ ?_ ?_ ?_
  · rw [habs]; norm_num; linarith
  · rw [habs]; norm_num; linarith
  · norm_num
  · rw [abs_lt]; norm_num; constructor <;> linarith

theorem sin_double_PI_bounds :
    (12244 : ℝ) / 10 ^ 20 < doubleMath.sin doubleMath.PI ∧
    doubleMath.sin doubleMath.PI < 12249 / 10 ^ 20 := by
  obtain ⟨h1, h2⟩ := sin_PI_bounds
  have habs : |Real.sin doubleMath.PI| = Real.sin doubleMath.PI :=
    abs_of_pos (by linarith)
  have herr := fl_error (Real.sin doubleMath.PI) (-53) (by norm_num)
    (by rw [habs]; norm_num; linarith) (by rw [habs]; norm_num; linarith)
  rw [abs_le] at herr
  show _ < fl (Real.sin doubleMath.PI) ∧ fl (Real.sin doubleMath.PI) < _
  norm_num at herr h1 h2 ⊢
  constructor <;> linarith [herr.1, herr.2]

theorem cos_double_half_PI_bounds :
    (6121 : ℝ) / 10 ^ 20 < doubleMath.cos (0.5 * doubleMath.PI) ∧
    doubleMath.cos (0.5 * doubleMath.PI) < 6125 / 10 ^ 20 := by
  obtain ⟨h1, h2⟩ := cos_half_PI_bounds
  have habs : |Real.cos (0.5 * doubleMath.PI)| = Real.cos (0.5 * doubleMath.PI) :=
    abs_of_pos (by linarith)
  have herr := fl_error (Real.cos (0.5 * doubleMath.PI)) (-54) (by norm_num)
    (by rw [habs]; norm_num; linarith) (by rw [habs]; norm_num; linarith)
  rw [abs_le] at herr
  show _ < fl (Real.cos (0.5 * doubleMath.PI)) ∧ fl (Real.cos (0.5 * doubleMath.PI)) < _
  norm_num at herr h1 h2 ⊢
  constructor <;> linarith [herr.1, herr.2]

theorem sunPositionDouble_east : sunPositionDouble 0 = ⟨20, 12, 0⟩ := by
  have hcos : doubleMath.cos 0 = 1 := by
    show fl (Real.cos 0) = 1
    rw [Real.cos_zero, fl_one]
  have hsin : doubleMath.sin 0 = 0 := by
    show fl (Real.sin 0) = 0
    rw [Real.sin_zero, fl_zero]
  unfold sunPositionDouble
  rw [zero_mul, fl_zero, hcos, hsin, one_mul, zero_mul, fl_zero, zero_add, fl_twenty,
    fl_twelve]

theorem sunPositionDouble_west : sunPositionDouble 1 = ⟨-20, 12 + 1 / 2 ^ 48, 0⟩ := by
  obtain ⟨h1, h2⟩ := sin_double_PI_bounds
  have hx : fl (doubleMath.cos (fl (1 * doubleMath.PI)) * 20) = -20 := by
    rw [one_mul, fl_PI, cos_double_PI]
    norm_num
    exact fl_neg_twenty
  have hpos : 0 < doubleMath.sin doubleMath.PI * 28 := by linarith
  have habs : |doubleMath.sin doubleMath.PI * 28| = doubleMath.sin doubleMath.PI * 28 :=
    abs_of_pos hpos
  have herr := fl_error (doubleMath.sin doubleMath.PI * 28) (-49) (by norm_num)
    (by rw [habs]; norm_num; linarith) (by rw [habs]; norm_num; linarith)
  rw [abs_le] at herr
  have hy : fl (fl (doubleMath.sin (fl (1 * doubleMath.PI)) * 28) + 12) = 12 + 1 / 2 ^ 48 := by
    rw [one_mul, fl_PI]
    have hu : 0 < fl (doubleMath.sin doubleMath.PI * 28) + 12 := by
      norm_num at herr h1 h2 ⊢; linarith [herr.1]
    refine fl_near _ _ 3 (12 * 2 ^ 49 + 2) (by norm_num) ?_ ?_ ?_ ?_
    · rw [abs_of_pos hu]; norm_num at herr h1 h2 ⊢; linarith [herr.1]
    · rw [abs_of_pos hu]; norm_num at herr h1 h2 ⊢; linarith [herr.2]
    · norm_num
    · rw [abs_lt]; norm_num at herr h1 h2 ⊢; constructor <;> linarith [herr.1, herr.2]
  unfold sunPositionDouble
  rw [hx, hy]

theorem sunPositionDouble_noon :
    (sunPositionDouble 0.5).y = 40 ∧ (sunPositionDouble 0.5).z = 0 ∧
    (1224 : ℝ) / 10 ^ 18 < (sunPositionDouble 0.5).x ∧
    (sunPositionDouble 0.5).x < 1226 / 10 ^ 18 := by
  obtain ⟨h1, h2⟩ := cos_double_half_PI_bounds
  have hy : fl (fl (doubleMath.sin (fl (0.5 * doubleMath.PI)) * 28) + 12) = 40 := by
    rw [fl_half_PI, sin_double_half_PI, one_mul, fl_twenty_eight]
    norm_num
    exact fl_forty
  have hpos : 0 < doubleMath.cos (0.5 * doubleMath.PI) * 20 := by linarith
  have habs : |doubleMath.cos (0.5 * doubleMath.PI) * 20| =
      doubleMath.cos (0.5 * doubleMath.PI) * 20 := abs_of_pos hpos
  have herr := fl_error (doubleMath.cos (0.5 * doubleMath.PI) * 20) (-50) (by norm_num)
    (by rw [habs]; norm_num; linarith) (by rw [habs]; norm_num; linarith)
  rw [abs_le] at herr
  refine ⟨hy, rfl, ?_, ?_⟩
  · show _ < fl (doubleMath.cos (fl (0.5 * doubleMath.PI)) * 20)
    rw [fl_half_PI]
    norm_num at herr h1 h2 ⊢; linarith [herr.1]
  · show fl (doubleMath.cos (fl (0.5 * doubleMath.PI)) * 20) < _
    rw [fl_half_PI]
    norm_num at herr h1 h2 ⊢; linarith [herr.2]

end DappledLight

namespace DappledLight

theorem sunPosition_west : sunPosition realMath 1 = ⟨-20, 12, 0⟩ := by
  simp [sunPosition, realMath]

/-- Counterexample to C6 as stated: in binary64 the position computed at `a = 1` is not
`(-20, 12, 0)`, because `Math.sin(Math.PI)` is not zero and leaves `y` above 12, and the
position computed at `a = 0.5` is not `(0, 40, 0)`, because `Math.cos(0.5 * Math.PI)` is
not zero and leaves `x` above 0. -/
theorem sun_position_not_exact :
    sunPositionDouble 1 ≠ ⟨-20, 12, 0⟩ ∧ sunPositionDouble 0.5 ≠ ⟨0, 40, 0⟩ := by
  constructor
  · rw [sunPositionDouble_west]
    intro h
    have hy := congrArg Vector3.y h
    norm_num at hy
  · intro h
    have hx := sunPositionDouble_noon.2.2.1
    rw [h] at hx
    norm_num at hx

/-- C6 (amended): in the binary64 arithmetic of JavaScript the light position computed
from the sun angle `a` as `(cos(a*pi)*20, sin(a*pi)*28 + 12, 0)` is exactly `(20, 12, 0)`
at `a = 0`; at `a = 1` it is `(-20, 12 + 2^-48, 0)`, printed `(-20, 12.000000000000004, 0)`;
at `a = 0.5` its `y` is exactly 40, its `z` is 0 and its `x` is a rounding residue between
`1.224e-15` and `1.226e-15`. The positions `(-20, 12, 0)` and `(0, 40, 0)` are exact over
the real numbers, where `Math.PI` is pi itself. -/
theorem sun_position_binary64 :
    sunPositionDouble 0 = ⟨20, 12, 0⟩ ∧
    sunPositionDouble 1 = ⟨-20, 12 + 1 / 2 ^ 48, 0⟩ ∧
    ((sunPositionDouble 0.5).y = 40 ∧ (sunPositionDouble 0.5).z = 0 ∧
      (1224 : ℝ) / 10 ^ 18 < (sunPositionDouble 0.5).x ∧
      (sunPositionDouble 0.5).x < 1226 / 10 ^ 18) ∧
    (sunPosition realMath 0 = ⟨20, 12, 0⟩ ∧
      sunPosition realMath 1 = ⟨-20, 12, 0⟩ ∧
      sunPosition realMath 0.5 = ⟨0, 40, 0⟩) :=
  ⟨sunPositionDouble_east, sunPositionDouble_west, sunPositionDouble_noon,
    sunPosition_east, sunPosition_west, sunPosition_noon⟩

end DappledLight
